import Mathlib

/-!
Verification development for the OnCall Schedule Converter.

The repository converts department-specific Excel on-call schedules into a
normalized list of schedule records.  This file gives a shallow embedding of
the schedule-extraction core — `Converter.py` (`DebugTracker`, `is_weekday`,
`create_schedule_entry`, `col_letter_to_index`, `EMPLOYEE_MAP`),
`department_configs/radiology_config.py` (`RadiologyConfig`) and
`cardiology_config.py` (`CardiologyConfig`) — and proves properties of the
embedded code.

Modelling conventions:
  * Python strings are Lean `String`s (ASCII case/character semantics, which
    covers all vocabulary used by the converter).
  * Python `datetime` dates are proleptic-Gregorian ordinals (`Nat`, day 1 =
    January 1 of year 1, exactly `datetime.toordinal()`); `timedelta(days=1)`
    is `+ 1`, and `date.weekday()` is `(ordinal + 6) % 7` as in CPython.
  * Times of day ("700", "1530", …) are kept as the corresponding `Nat`
    values; the HHMM digit strings of the source compare the same way.
  * Python `dict`s are association lists built with last-write-wins inserts
    (`pyDictOf`), preserving first-insertion key order as CPython does.
  * Python `set`s of strings are duplicate-free lists built with
    insert-if-absent.
  * Worksheets are total functions from (row, column) to a cell value.
-/

/-! ## Python string primitives -/

/-- Whitespace characters recognised by Python's `str.strip()`
(restricted to the ASCII ones that can occur in spreadsheet cells). -/
def pySpace (c : Char) : Bool :=
  c = ' ' || c = '\t' || c = '\n' || c = '\r'

/-- Python `str.strip()`. -/
def pyStrip (s : String) : String :=
  ⟨((s.data.dropWhile pySpace).reverse.dropWhile pySpace).reverse⟩

/-- Python `str.upper()` (ASCII). -/
def strUpper (s : String) : String := ⟨s.data.map Char.toUpper⟩

/-- Python `str.lower()` (ASCII). -/
def strLower (s : String) : String := ⟨s.data.map Char.toLower⟩

/-- Python `str.isupper()`: at least one cased character and no lowercase
cased character (ASCII). -/
def pyIsUpper (s : String) : Bool :=
  s.data.any (fun c => c.isAlpha) && s.data.all (fun c => !c.isLower)

/-- Python `sep in haystack` prefix test helper. -/
def listStartsWith : List Char → List Char → Bool
  | [], _ => true
  | _ :: _, [] => false
  | a :: as, b :: bs => a = b && listStartsWith as bs

/-- Python `needle in haystack` substring test. -/
def pyIn (needle : List Char) : List Char → Bool
  | [] => needle.isEmpty
  | c :: rest => listStartsWith needle (c :: rest) || pyIn needle rest

/-- Python `str.split(sep)` for a single-character separator
(e.g. `"a/b/".split("/") == ["a", "b", ""]`). -/
def splitChar (sep : Char) : List Char → List (List Char)
  | [] => [[]]
  | c :: rest =>
    let r := splitChar sep rest
    if c = sep then [] :: r
    else
      match r with
      | [] => [[c]]
      | h :: t => (c :: h) :: t

/-- Python `str.split()` with no argument: split on whitespace runs,
dropping empty parts. -/
def splitWsAux : List Char → List Char → List (List Char)
  | [], acc => if acc.isEmpty then [] else [acc.reverse]
  | c :: rest, acc =>
    if pySpace c then
      if acc.isEmpty then splitWsAux rest [] else acc.reverse :: splitWsAux rest []
    else splitWsAux rest (c :: acc)

/-- Python `str.split()` with no argument. -/
def splitWs (l : List Char) : List (List Char) := splitWsAux l []

/-- Recursion core for `removeAll`, structural on a fuel argument so that
it evaluates by kernel reduction; a non-empty matched pattern always
consumes at least one character, so fuel `l.length` never runs out. -/
def removeAllAux (pat : List Char) : Nat → List Char → List Char
  | _, [] => []
  | 0, l => l
  | fuel + 1, c :: rest =>
    if pat ≠ [] ∧ listStartsWith pat (c :: rest) then
      removeAllAux pat fuel ((c :: rest).drop pat.length)
    else c :: removeAllAux pat fuel rest

/-- Python `str.replace(pat, "")`: remove every (leftmost-first,
non-overlapping) occurrence of `pat`. -/
def removeAll (pat : List Char) (l : List Char) : List Char :=
  removeAllAux pat l.length l

/-- Python `str.replace(".", "")`. -/
def delPeriods (s : String) : String := ⟨s.data.filter (fun c => c ≠ '.')⟩

/-- Python `int(s)` on the strings produced by the converter: optional
surrounding whitespace around a non-empty digit run.  (A leading `-` never
survives the converter's `split('-')[0]`, so signs are not modelled.) -/
def parsePyInt (l : List Char) : Option Nat :=
  let t := ((l.dropWhile pySpace).reverse.dropWhile pySpace).reverse
  if t ≠ [] && t.all Char.isDigit then
    some (t.foldl (fun n c => n * 10 + (c.toNat - 48)) 0)
  else none

/-! ## Python dict model -/

/-- One `d[k] = v` assignment on a CPython dict: updates the value in place
if the key exists (keeping first-insertion order), else appends. -/
def pyDictInsert (k v : String) : List (String × String) → List (String × String)
  | [] => [(k, v)]
  | (k', v') :: rest =>
    if k' = k then (k, v) :: rest else (k', v') :: pyDictInsert k v rest

/-- A CPython dict built from a list of key/value pairs (as in a dict
comprehension): later pairs with the same key overwrite earlier ones. -/
def pyDictOf (pairs : List (String × String)) : List (String × String) :=
  pairs.foldl (fun d kv => pyDictInsert kv.1 kv.2 d) []

/-- Python `d[k]`-style lookup (keys of a `pyDictOf` result are unique, so
the first hit is the binding). -/
def dictFind (d : List (String × String)) (k : String) : Option String :=
  (d.find? (fun p => p.1 = k)).map (·.2)

/-- Python `k in d`. -/
def dictContains (d : List (String × String)) (k : String) : Bool :=
  (dictFind d k).isSome

/-- Python `d[k]` where the caller has checked `k in d`. -/
def dictGet (d : List (String × String)) (k : String) : String :=
  (dictFind d k).getD ""

/-! ## Dates (CPython `datetime.date` internals) -/

/-- `calendar.isleap`. -/
def isLeapYear (y : Nat) : Bool :=
  (y % 4 = 0 && y % 100 ≠ 0) || y % 400 = 0

/-- `calendar.monthrange(y, m)[1]`: days in a month. -/
def daysInMonth (y m : Nat) : Nat :=
  if m = 2 then (if isLeapYear y then 29 else 28)
  else if m = 4 ∨ m = 6 ∨ m = 9 ∨ m = 11 then 30
  else 31

/-- Days in the months of year `y` strictly before month `m`. -/
def daysBeforeMonth (y m : Nat) : Nat :=
  ((List.range' 1 (m - 1)).map (daysInMonth y)).sum

/-- `datetime(y, m, d).toordinal()`: proleptic Gregorian ordinal,
day 1 = January 1 of year 1. -/
def toOrdinal (y m d : Nat) : Nat :=
  365 * (y - 1) + (y - 1) / 4 - (y - 1) / 100 + (y - 1) / 400
    + daysBeforeMonth y m + d

/-- `date.weekday()`: 0 = Monday … 6 = Sunday.  CPython computes exactly
`(toordinal() + 6) % 7`. -/
def pyWeekday (o : Nat) : Nat := (o + 6) % 7

/-- Day-of-week in the spec's 0 = Sunday … 6 = Saturday convention
(ordinal 1, January 1 of year 1, is a Monday, so its value is 1). -/
def dayOfWeekSun0 (o : Nat) : Nat := o % 7

/-- `Converter.is_weekday`: weekday means Sunday–Thursday
(`date.weekday() in [6, 0, 1, 2, 3]`). -/
def is_weekday (o : Nat) : Bool :=
  [6, 0, 1, 2, 3].contains (pyWeekday o)

/-- `Converter.col_letter_to_index`: column letter to 1-based index. -/
def col_letter_to_index (letter : String) : Nat :=
  (strUpper letter).data.foldl (fun r c => r * 26 + (c.toNat - 'A'.toNat + 1)) 0

/-! ## Data model -/

/-- One value of `EMPLOYEE_MAP` in `Converter.py`. -/
structure EmpData where
  emp_initials : String
  emp_roles : List String
  emp_name : String
  department : String
deriving Repr, DecidableEq

/-- `Converter.EMPLOYEE_MAP` (insertion order preserved). -/
def EMPLOYEE_MAP : List (String × EmpData) := [
  ("allwo0f", ⟨"AK", ["1056"], "Dr. Allison Livingston", "Radiology"⟩),
  ("audr95t", ⟨"AO", ["1056"], "Dr. Audrey Randy", "Radiology"⟩),
  ("ellias4", ⟨"AS", ["1056"], "Dr. Ankur Simran Ellison", "Radiology"⟩),
  ("lotta3", ⟨"AT", ["1056"], "Dr. Angela Lotti", "Radiology"⟩),
  ("figeftr", ⟨"FT", ["1056"], "Dr. Fernando Figer", "Radiology"⟩),
  ("hauser4", ⟨"IG", ["1056"], "Dr. Irvin Garrett Hauser", "Radiology"⟩),
  ("kaisbam", ⟨"LK", ["1056"], "Dr. Barry Midland Kaiser", "Radiology"⟩),
  ("bellam5", ⟨"MB", ["1056"], "Dr. Monica Bella", "Radiology"⟩),
  ("chengme", ⟨"MC", ["1056"], "Dr. Milkha Chengi", "Radiology"⟩),
  ("fakma0e", ⟨"MF", ["1056"], "Dr. Maria Nargis", "Radiology"⟩),
  ("mumir4", ⟨"MM", ["1056"], "Dr. Mir Miranda", "Radiology"⟩),
  ("nilanin", ⟨"NN", ["1056"], "Dr. Nayan Nilani", "Radiology"⟩),
  ("hernapat", ⟨"PR", ["1056"], "Dr. Paul Hernandez", "Radiology"⟩),
  ("gonzsa2", ⟨"SG", ["1056"], "Dr. Gonzales, Salem", "Radiology"⟩),
  ("alitar3b", ⟨"TA", ["1056"], "Dr. Tarzan Ali", "Radiology"⟩),
  ("ignaro5w", ⟨"RI", ["1056"], "Dr. Roberta Ignatius", "Radiology"⟩),
  ("qulfi6e", ⟨"Q", ["3042457"], "Qureshi", "Cardiology"⟩),
  ("salam0c", ⟨"S", ["3042457"], "Salami", "Cardiology"⟩),
  ("mehndo4e", ⟨"M", ["3042457"], "M. Enadi", "Cardiology"⟩),
  ("lipar45", ⟨"L", ["3042457"], "L. Parivar", "Cardiology"⟩),
  ("alsind34", ⟨"AS", ["3042457"], "Le Sindapur", "Cardiology"⟩),
  ("formi57r", ⟨"F99", ["3042457"], "Fox Machar", "Cardiology"⟩),
  ("purita5", ⟨"P99", ["72"], "P Bhajra", "Cardiology"⟩),
  ("konasje", ⟨"K99", ["72"], "Konsa", "Cardiology"⟩),
  ("bhenjt4", ⟨"B99", ["72"], "Ben Ji", "Cardiology"⟩),
  ("maskirt3", ⟨"Q99", ["72"], "Mesquita N", "Cardiology"⟩),
  ("vahard3g", ⟨"V99", ["72"], "Vaha Robert", "Cardiology"⟩),
  ("lukolnd", ⟨"L99", ["72"], "Lu K. Olna", "Cardiology"⟩),
  ("sponset5", ⟨"S99", ["72"], "Sp F Sed", "Cardiology"⟩),
  ("tamasho", ⟨"T99", ["72"], "Tamhane", "Cardiology"⟩),
  ("fouza64w", ⟨"F992", ["47"], "F Ouza Wik", "Cardiology"⟩),
  ("dosa0b", ⟨"AG", ["2001"], "Anita Gunda", "Cardiology"⟩),
  ("ghas4g", ⟨"GS", ["84", "2001"], "Ghaitani S", "Cardiology"⟩),
  ("abherq", ⟨"AE", ["84"], "Abe E M", "Cardiology"⟩),
  ("villfh", ⟨"VL", ["84"], "Village Lomba", "Cardiology"⟩)]

/-- One element of `DebugTracker.expected_entries`. -/
structure ExpectedEntry where
  team : String
  day : Nat
  start_time : Nat
  end_time : Nat
  source : String
  employee : Option String
  generated : Bool
deriving Repr, DecidableEq

/-- `Converter.DebugTracker` state (the `department_name` field plays no
role in the logic and is omitted). -/
structure DebugTracker where
  unknown_names : List String
  unknown_initials : List String
  expected_entries : List ExpectedEntry
deriving Repr, DecidableEq

/-- A freshly constructed `DebugTracker`. -/
def tracker0 : DebugTracker := ⟨[], [], []⟩

/-- `DebugTracker.add_unknown_name` (Python `set.add`). -/
def DebugTracker.add_unknown_name (tr : DebugTracker) (n : String) : DebugTracker :=
  if tr.unknown_names.contains n then tr
  else { tr with unknown_names := tr.unknown_names ++ [n] }

/-- `DebugTracker.add_unknown_initials` (Python `set.add`). -/
def DebugTracker.add_unknown_initials (tr : DebugTracker) (n : String) : DebugTracker :=
  if tr.unknown_initials.contains n then tr
  else { tr with unknown_initials := tr.unknown_initials ++ [n] }

/-- `DebugTracker.add_expected_entry`. -/
def DebugTracker.add_expected_entry (tr : DebugTracker) (team : String) (day st en : Nat)
    (source : String) (employee : Option String) : DebugTracker :=
  { tr with expected_entries :=
      tr.expected_entries ++ [⟨team, day, st, en, source, employee, false⟩] }

/-- The match condition of `DebugTracker.mark_entry_generated`: exact
(team, day, start, end) key match on a not-yet-generated entry. -/
def entryMatches (team : String) (day st en : Nat) (e : ExpectedEntry) : Bool :=
  e.team = team && e.day = day && e.start_time = st && e.end_time = en && e.generated = false

/-- The list update of `DebugTracker.mark_entry_generated`: flip the first
not-yet-generated entry with an exactly matching key, then stop. -/
def markList (team : String) (day st en : Nat) : List ExpectedEntry → List ExpectedEntry
  | [] => []
  | e :: rest =>
    if entryMatches team day st en e then { e with generated := true } :: rest
    else e :: markList team day st en rest

/-- `DebugTracker.mark_entry_generated`. -/
def DebugTracker.mark_entry_generated (tr : DebugTracker) (team : String)
    (day st en : Nat) : DebugTracker :=
  { tr with expected_entries := markList team day st en tr.expected_entries }

/-- `DebugTracker.get_missing_entries`. -/
def DebugTracker.get_missing_entries (tr : DebugTracker) : List ExpectedEntry :=
  tr.expected_entries.filter (fun e => !e.generated)

/-- Number of expected entries already marked generated. -/
def countGenerated (l : List ExpectedEntry) : Nat :=
  (l.filter (fun e => e.generated)).length

/-- A `Converter.create_schedule_entry` result.  `STARTDATE`/`ENDDATE` keep
the date ordinal (the source formats it as MM/DD/YYYY, a bijective
rendering); `STARTTIME`/`ENDTIME` keep the numeric value of the HHMM
string. -/
structure ScheduleEntry where
  EMPLOYEE : String
  TEAM : String
  STARTDATE : Nat
  STARTTIME : Nat
  ENDDATE : Nat
  ENDTIME : Nat
  ROLE : String
  NOTES : String
deriving Repr, DecidableEq

/-- `Converter.create_schedule_entry`. -/
def create_schedule_entry (username team_id : String) (start_date start_time end_date end_time : Nat)
    (role : String) : ScheduleEntry :=
  { EMPLOYEE := username, TEAM := team_id,
    STARTDATE := start_date, STARTTIME := start_time,
    ENDDATE := end_date, ENDTIME := end_time,
    ROLE := role, NOTES := "" }

/-- A worksheet cell value: empty, a string, or a `datetime` (of which the
converter only reads the `.day` attribute). -/
inductive CellVal where
  | none
  | str (s : String)
  | dt (day : Nat)
deriving Repr, DecidableEq

/-- Python truthiness of a cell value (`None` and `""` are falsy). -/
def CellVal.truthy : CellVal → Bool
  | .none => false
  | .str s => s ≠ ""
  | .dt _ => true

/-- Python `str(cell)` for the cell values the converter actually reads
(the textual rendering of a `datetime` cell is never consumed by any code
path modelled here, and is left as `""`). -/
def CellVal.toStr : CellVal → String
  | .none => "None"
  | .str s => s
  | .dt _ => ""

/-- A worksheet: total function from (row, column), 1-based, to a cell. -/
def Worksheet : Type := Nat → Nat → CellVal

/-! ## Identifier resolver (`CardiologyConfig._find_username_by_identifier`) -/

/-- Python truthiness of an optional username (`None` and `""` are falsy). -/
def optTruthy : Option String → Bool
  | Option.none => false
  | some u => u ≠ ""

/-- `CardiologyConfig._find_username_by_identifier`: resolve a free-text
identifier against the employee map, recording unresolved text in the
tracker.  Returns the resolved username (or `none`) plus the new tracker
state; the embedding is total, matching the source, which never raises. -/
def find_username_by_identifier (emap : List (String × EmpData)) (tr : DebugTracker)
    (identifier : String) : Option String × DebugTracker :=
  if identifier = "" then (none, tr)
  else
    let idS := pyStrip identifier
    let initialsToUsername := pyDictOf (emap.map (fun p => (p.2.emp_initials, p.1)))
    let nameToUsername := pyDictOf (emap.map (fun p => (p.2.emp_name, p.1)))
    match dictFind initialsToUsername (strUpper idS) with
    | some u => (some u, tr)
    | Option.none =>
      match dictFind nameToUsername idS with
      | some u => (some u, tr)
      | Option.none =>
        let idNorm := pyStrip (delPeriods idS)
        match nameToUsername.find?
            (fun p => strLower (pyStrip (delPeriods p.1)) = strLower idNorm) with
        | some p => (some p.2, tr)
        | Option.none =>
          if idS.length ≤ 4 ∧ pyIsUpper idS then
            (none, tr.add_unknown_initials idS)
          else
            (none, tr.add_unknown_name idS)

/-- `CardiologyConfig._get_employee_role`: first role of a known employee,
`"72"` otherwise.  (`emp_roles[0]` is modelled with `headD`; every
directory entry has a non-empty role list.) -/
def get_employee_role (emap : List (String × EmpData)) (username : String) : String :=
  match emap.find? (fun p => p.1 = username) with
  | some p => p.2.emp_roles.headD ""
  | Option.none => "72"

/-! ## Radiology worksheet readers (`RadiologyConfig`) -/

/-- The row ranges of `RadiologyConfig._get_employee_from_work_schedule`
where schedule data appears. -/
def row_ranges : List (Nat × Nat) := [(5, 9), (13, 17), (21, 25), (29, 33), (37, 41)]

/-- Expand an inclusive row range. -/
def rangeRows (p : Nat × Nat) : List Nat := List.range' p.1 (p.2 + 1 - p.1)

/-- All rows scanned by the work-schedule lookup, in scan order. -/
def workScanRows : List Nat := row_ranges.flatMap rangeRows

/-- Extract the day number from a work-schedule day cell: a `datetime`
yields `.day`; otherwise take the text before the first `-`, strip, and
parse as an integer (`None` on `ValueError`). -/
def cellDayNum : CellVal → Option Nat
  | .dt d => some d
  | v =>
    let s := pyStrip v.toStr
    parsePyInt ((splitChar '-' s.data).headD [])

/-- The inner reader loop of `_get_employee_from_work_schedule` over the
slash-separated parts of a compound cell: return the first non-`TELE` part
registered in the initials index, recording each non-`TELE` unregistered
part as unknown initials. -/
def readersLoop (i2e : List (String × String)) (tr : DebugTracker) :
    List String → Option String × DebugTracker
  | [] => (none, tr)
  | r :: rest =>
    if r ≠ "TELE" ∧ dictContains i2e r then (some r, tr)
    else if r ≠ "TELE" then readersLoop i2e (tr.add_unknown_initials r) rest
    else readersLoop i2e tr rest

/-- The slash-separated reader tokens of a compound work-shift cell:
`[r.strip() for r in emp_str.split('/') if r.strip()]`. -/
def slashReaders (empStr : String) : List String :=
  ((splitChar '/' empStr.data).map (fun r => pyStrip ⟨r⟩)).filter (fun r => r ≠ "")

/-- Processing of one non-empty work-schedule employee cell (body of the
day-match branch of `_get_employee_from_work_schedule`);`none` means the
row scan continues. -/
def resolveWorkCell (i2e : List (String × String)) (tr : DebugTracker) (empStr : String) :
    Option String × DebugTracker :=
  if empStr.data.contains '/' then
    let readers := slashReaders empStr
    match readersLoop i2e tr readers with
    | (some r, tr') => (some r, tr')
    | (Option.none, tr') =>
      if readers.contains "TELE" ∧ dictContains i2e "TELE" then (some "TELE", tr')
      else (none, tr')
  else
    if dictContains i2e empStr then (some empStr, tr)
    else (none, tr.add_unknown_initials empStr)

/-- Row scan of `_get_employee_from_work_schedule`. -/
def getEmpWorkRows (i2e : List (String × String)) (wsW : Worksheet) (day_num col_idx : Nat)
    (tr : DebugTracker) : List Nat → Option String × DebugTracker
  | [] => (none, tr)
  | r :: rest =>
    let day_cell := wsW r 1
    if day_cell.truthy then
      match cellDayNum day_cell with
      | some cd =>
        if cd = day_num then
          let emp_cell := wsW r col_idx
          if emp_cell.truthy then
            match resolveWorkCell i2e tr (strUpper (pyStrip emp_cell.toStr)) with
            | (some e, tr') => (some e, tr')
            | (Option.none, tr') => getEmpWorkRows i2e wsW day_num col_idx tr' rest
          else getEmpWorkRows i2e wsW day_num col_idx tr rest
        else getEmpWorkRows i2e wsW day_num col_idx tr rest
      | Option.none => getEmpWorkRows i2e wsW day_num col_idx tr rest
    else getEmpWorkRows i2e wsW day_num col_idx tr rest

/-- `RadiologyConfig._get_employee_from_work_schedule`. -/
def get_employee_from_work_schedule (emap : List (String × EmpData)) (wsW : Worksheet)
    (day_num : Nat) (col_letter : String) (tr : DebugTracker) :
    Option String × DebugTracker :=
  let i2e := pyDictOf (emap.map (fun p => (p.2.emp_initials, p.1)))
  getEmpWorkRows i2e wsW day_num (col_letter_to_index col_letter) tr workScanRows

/-- The per-employee name comparison of
`_get_employee_from_oncall_schedule` (`full_name` is the upper-cased cell
text, `empNameUpper` the upper-cased directory name). -/
def empNameMatches (full_name empNameUpper : String) : Bool :=
  if full_name.data.contains ',' then
    let parts := splitChar ',' full_name.data
    let last_name := pyStrip ⟨parts.headD []⟩
    let first_name := if parts.length > 1 then pyStrip ⟨(parts.drop 1).headD []⟩ else ""
    if pyIn last_name.data empNameUpper.data then
      (first_name ≠ "" && pyIn first_name.data empNameUpper.data) || first_name = ""
    else false
  else
    let n := pyStrip ⟨removeAll "DR".data (removeAll "DR.".data full_name.data)⟩
    let e := pyStrip ⟨removeAll "DR".data (removeAll "DR.".data empNameUpper.data)⟩
    pyIn n.data e.data || pyIn e.data n.data

/-- Name-to-initials resolution of `_get_employee_from_oncall_schedule`:
first directory entry whose name matches, else record an unknown name and
return `none`. -/
def oncallNameLookup (emap : List (String × EmpData)) (full original : String)
    (tr : DebugTracker) : Option String × DebugTracker :=
  match emap.find? (fun p => empNameMatches full (strUpper p.2.emp_name)) with
  | some p => (some p.2.emp_initials, tr)
  | Option.none => (none, tr.add_unknown_name original)

/-- Row scan of `_get_employee_from_oncall_schedule` (rows 23 and 29 are
header rows and skipped). -/
def getEmpOncallRows (emap : List (String × EmpData)) (wsO : Worksheet) (day_num : Nat)
    (tr : DebugTracker) : List Nat → Option String × DebugTracker
  | [] => (none, tr)
  | r :: rest =>
    if r = 23 ∨ r = 29 then getEmpOncallRows emap wsO day_num tr rest
    else
      let name_cell := wsO r 1
      if ¬name_cell.truthy ∨ pyStrip name_cell.toStr = "" then
        getEmpOncallRows emap wsO day_num tr rest
      else
        let cv := wsO r (3 + day_num)
        if cv.truthy ∧ strUpper (pyStrip cv.toStr) = "X" then
          oncallNameLookup emap (strUpper (pyStrip name_cell.toStr))
            (pyStrip name_cell.toStr) tr
        else getEmpOncallRows emap wsO day_num tr rest

/-- `RadiologyConfig._get_employee_from_oncall_schedule`. -/
def get_employee_from_oncall_schedule (emap : List (String × EmpData)) (wsO : Worksheet)
    (day_num row_start row_end : Nat) (tr : DebugTracker) :
    Option String × DebugTracker :=
  getEmpOncallRows emap wsO day_num tr (List.range' row_start (row_end + 1 - row_start))

/-! ## Radiology extraction (`RadiologyConfig.extract_schedule_data`) -/

/-- One team's entry in the radiology `teams` configuration. -/
structure RadTeamCfg where
  team_id : String
  work_cols : List String
  oncall_rows : Nat × Nat
deriving Repr, DecidableEq

/-- The radiology `teams` dict built by
`RadiologyConfig.validate_and_configure`. -/
def radiologyTeams : List (String × RadTeamCfg) := [
  ("Gen_CT", ⟨"114", ["H", "I"], (5, 21)⟩),
  ("IRA", ⟨"115", ["M"], (24, 27)⟩),
  ("MRI", ⟨"116", ["C"], (30, 38)⟩),
  ("US", ⟨"126", ["E"], (5, 21)⟩),
  ("Fluoro", ⟨"127", ["O"], (5, 21)⟩)]

/-- `self.employee_map[u]['emp_roles'][0]` (role lists in the directory are
non-empty, so `headD` never supplies its default on reachable inputs). -/
def empRole0 (emap : List (String × EmpData)) (u : String) : String :=
  ((emap.find? (fun p => p.1 = u)).map (fun p => p.2.emp_roles.headD "")).getD ""

/-- The extraction state: emitted records so far plus the tracker. -/
def ExtractState : Type := List ScheduleEntry × DebugTracker

/-- The per-block pattern repeated throughout
`RadiologyConfig.extract_schedule_data` (lines 367–435): register the
expected entry, then, when the fetched employee initials are truthy and in
the initials index, append the schedule record and mark the entry
generated. -/
def radBlock (emap : List (String × EmpData)) (i2e : List (String × String))
    (team_name team_id : String) (day st en : Nat) (src : String) (dS dE : Nat)
    (emp : Option String) (s : ExtractState) : ExtractState :=
  let tr := s.2.add_expected_entry team_name day st en src emp
  match emp with
  | some e =>
    if e ≠ "" ∧ dictContains i2e e then
      (s.1 ++ [create_schedule_entry (dictGet i2e e) team_id dS st dE en
          (empRole0 emap (dictGet i2e e))],
        tr.mark_entry_generated team_name day st en)
    else (s.1, tr)
  | Option.none => (s.1, tr)

/-- Processing of one team on one day in
`RadiologyConfig.extract_schedule_data`: weekdays get the work blocks plus
the overnight on-call block (three blocks for `Gen_CT`, two otherwise);
weekends get a single 0700–0700 on-call block ending the next day. -/
def radProcessTeamDay (emap : List (String × EmpData)) (i2e : List (String × String))
    (wsW wsO : Worksheet) (day cur nxt : Nat) (iwd : Bool)
    (tname : String) (tc : RadTeamCfg) (s : ExtractState) : ExtractState :=
  if iwd then
    if tname = "Gen_CT" then
      let r1 := get_employee_from_work_schedule emap wsW day (tc.work_cols.getD 0 "") s.2
      let s1 := radBlock emap i2e tname tc.team_id day 700 1100 "work" cur cur r1.1 (s.1, r1.2)
      let r2 := get_employee_from_work_schedule emap wsW day (tc.work_cols.getD 1 "") s1.2
      let s2 := radBlock emap i2e tname tc.team_id day 1100 1530 "work" cur cur r2.1 (s1.1, r2.2)
      let r3 := get_employee_from_oncall_schedule emap wsO day tc.oncall_rows.1 tc.oncall_rows.2 s2.2
      radBlock emap i2e tname tc.team_id day 1530 700 "oncall" cur nxt r3.1 (s2.1, r3.2)
    else
      let r1 := get_employee_from_work_schedule emap wsW day (tc.work_cols.getD 0 "") s.2
      let s1 := radBlock emap i2e tname tc.team_id day 700 1530 "work" cur cur r1.1 (s.1, r1.2)
      let r2 := get_employee_from_oncall_schedule emap wsO day tc.oncall_rows.1 tc.oncall_rows.2 s1.2
      radBlock emap i2e tname tc.team_id day 1530 700 "oncall" cur nxt r2.1 (s1.1, r2.2)
  else
    let r := get_employee_from_oncall_schedule emap wsO day tc.oncall_rows.1 tc.oncall_rows.2 s.2
    radBlock emap i2e tname tc.team_id day 700 700 "oncall" cur nxt r.1 (s.1, r.2)

/-- `RadiologyConfig.extract_schedule_data`: iterate the days of the month
and the configured teams, producing the record list and final tracker. -/
def radiology_extract_schedule_data (emap : List (String × EmpData)) (wsW wsO : Worksheet)
    (teams : List (String × RadTeamCfg)) (month year : Nat) (tr0 : DebugTracker) :
    ExtractState :=
  let i2e := pyDictOf (emap.map (fun p => (p.2.emp_initials, p.1)))
  (List.range' 1 (daysInMonth year month)).foldl (fun s day =>
      let cur := toOrdinal year month day
      let nxt := cur + 1
      let iwd := is_weekday cur
      teams.foldl
        (fun s t => radProcessTeamDay emap i2e wsW wsO day cur nxt iwd t.1 t.2 s) s)
    ([], tr0)

/-! ## Cardiology output builder (`CardiologyConfig._create_output_data`) -/

/-- The per-day Team 123 data produced by `_read_cardiology_data`:
consultant and staff rows as (resolved-username-or-`None`, markers). -/
structure CardioDayData where
  consultants : List (Option String × List String)
  staff : List (Option String × List String)
deriving Repr, DecidableEq

/-- The guard/emit pattern repeated throughout
`CardiologyConfig._create_output_data`: when `guard` holds, register the
expected block (employee `None`), then, when the selected username is
truthy, append the record built by `mk` and mark the entry generated. -/
def cardBlock (team : String) (day st en : Nat) (src : String) (guard : Bool)
    (u : Option String) (mk : String → ScheduleEntry) (s : ExtractState) : ExtractState :=
  if guard then
    let tr := s.2.add_expected_entry team day st en src none
    match u with
    | some x =>
      if x ≠ "" then (s.1 ++ [mk x], tr.mark_entry_generated team day st en)
      else (s.1, tr)
    | Option.none => (s.1, tr)
  else s

/-- First staff entry whose username is truthy and whose markers contain
`marker` (one pass of the staff-selection loop). -/
def findStaff (staff : List (Option String × List String)) (marker : String) :
    Option String :=
  match staff.find? (fun p => optTruthy p.1 && p.2.contains marker) with
  | some p => p.1
  | Option.none => none

/-- Weekday consultant selection of `_create_output_data`: first truthy
username with marker `D`, else with a marker in {`LD`, `DL`, `D/A`}, else
the first truthy username. -/
def pickWeekdayConsultant (cs : List (Option String × List String)) : Option String :=
  match cs.find? (fun p => optTruthy p.1 && p.2.contains "D") with
  | some p => p.1
  | Option.none =>
    match cs.find? (fun p => optTruthy p.1 &&
        (p.2.contains "LD" || p.2.contains "DL" || p.2.contains "D/A")) with
    | some p => p.1
    | Option.none =>
      match cs.find? (fun p => optTruthy p.1) with
      | some p => p.1
      | Option.none => none

/-- Weekend consultant selection of `_create_output_data`: first truthy
username with marker `X`, else with marker `D`, else the first truthy
username. -/
def pickWeekendConsultant (cs : List (Option String × List String)) : Option String :=
  match cs.find? (fun p => optTruthy p.1 && p.2.contains "X") with
  | some p => p.1
  | Option.none =>
    match cs.find? (fun p => optTruthy p.1 && p.2.contains "D") with
    | some p => p.1
    | Option.none =>
      match cs.find? (fun p => optTruthy p.1) with
      | some p => p.1
      | Option.none => none

/-- The staff day-call selection with its `2C` fallback: the first pass
takes the first truthy username bearing `D`; if none, the first entry
bearing `D` or `2C` (resolved or not) makes the block expected and, when
that entry is truthy and bears `2C`, supplies the username. -/
def staffDayCall (staff : List (Option String × List String)) : Bool × Option String :=
  let firstD := findStaff staff "D"
  if firstD.isSome then (true, firstD)
  else
    match staff.find? (fun p => p.2.contains "D" || p.2.contains "2C") with
    | some p =>
      (true, if optTruthy p.1 && p.2.contains "2C" then p.1 else none)
    | Option.none => (false, none)

/-- Whether any staff entry (resolved or not) bears the marker —
the `has_*_assignment` fallback scans of `_create_output_data`. -/
def staffHasMarker (staff : List (Option String × List String)) (marker : String) : Bool :=
  staff.any (fun p => p.2.contains marker)

/-- Weekday Team 123 processing in `_create_output_data` (lines 553–661 of
`cardiology_config.py`): consultant 2nd day call, staff 1st day call,
evening call and night call. -/
def card123Weekday (emap : List (String × EmpData)) (dd : CardioDayData)
    (day cur nxt : Nat) (s : ExtractState) : ExtractState :=
  let consultant := pickWeekdayConsultant dd.consultants
  let dc := staffDayCall dd.staff
  let evening_call := findStaff dd.staff "E"
  let has_evening := evening_call.isSome || staffHasMarker dd.staff "E"
  let night_call := findStaff dd.staff "N"
  let has_night := night_call.isSome || staffHasMarker dd.staff "N"
  let s := cardBlock "Cardiology" day 700 1600 "Team123" (!dd.consultants.isEmpty)
    consultant
    (fun u => { create_schedule_entry u "123" cur 700 nxt 1600 "3042457" with
                  NOTES := "2nd Day Call" }) s
  let s := cardBlock "Cardiology" day 700 1600 "Team123" dc.1 dc.2
    (fun u => { create_schedule_entry u "123" cur 700 nxt 1600 (get_employee_role emap u) with
                  NOTES := "1st Day Call" }) s
  let s := cardBlock "Cardiology" day 1600 1900 "Team123" has_evening evening_call
    (fun u => { create_schedule_entry u "123" cur 1600 nxt 1900 (get_employee_role emap u) with
                  NOTES := "Evening Call" }) s
  cardBlock "Cardiology" day 1900 700 "Team123" has_night night_call
    (fun u => { create_schedule_entry u "123" cur 1900 nxt 700 (get_employee_role emap u) with
                  NOTES := "Night Call" }) s

/-- Weekend Team 123 processing in `_create_output_data`: consultant and
staff weekend day calls (0700–1900) plus night call. -/
def card123Weekend (emap : List (String × EmpData)) (dd : CardioDayData)
    (day cur nxt : Nat) (s : ExtractState) : ExtractState :=
  let consultant := pickWeekendConsultant dd.consultants
  let dc := staffDayCall dd.staff
  let night_call := findStaff dd.staff "N"
  let has_night := night_call.isSome || staffHasMarker dd.staff "N"
  let s := cardBlock "Cardiology" day 700 1900 "Team123" (!dd.consultants.isEmpty)
    consultant
    (fun u => { create_schedule_entry u "123" cur 700 nxt 1900 "3042457" with
                  NOTES := "2nd Weekend Day Call" }) s
  let s := cardBlock "Cardiology" day 700 1900 "Team123" dc.1 dc.2
    (fun u => { create_schedule_entry u "123" cur 700 nxt 1900 (get_employee_role emap u) with
                  NOTES := "1st Weekend Day Call" }) s
  cardBlock "Cardiology" day 1900 700 "Team123" has_night night_call
    (fun u => { create_schedule_entry u "123" cur 1900 nxt 700 (get_employee_role emap u) with
                  NOTES := "Night Call" }) s

/-- Processing of one day in `CardiologyConfig._create_output_data`:
Team 123 first, then Team 94, then Team 8. -/
def cardProcessDay (emap : List (String × EmpData))
    (cardiovascular_data : Nat → Option (List (Option String × List String)))
    (interventional_data : Nat → Option (Option String))
    (cardiology_data : Nat → Option CardioDayData)
    (year month day : Nat) (s : ExtractState) : ExtractState :=
  let cur := toOrdinal year month day
  let nxt := cur + 1
  let iwd := is_weekday cur
  let s :=
    match cardiology_data day with
    | some dd => if iwd then card123Weekday emap dd day cur nxt s
                 else card123Weekend emap dd day cur nxt s
    | Option.none => s
  let s :=
    match interventional_data day with
    | some username =>
      let start_time := if iwd then 1600 else 700
      cardBlock "Interventional Cardiologist" day start_time 700 "Team94" true username
        (fun u => { create_schedule_entry u "94" cur start_time nxt 700
                      (get_employee_role emap u) with NOTES := "On Call" }) s
    | Option.none => s
  match cardiovascular_data day with
  | some entries =>
    entries.foldl (fun s p =>
      p.2.foldl (fun s role =>
        cardBlock "Cardiovascular" day 700 700 "Team8" true p.1
          (fun u => create_schedule_entry u "8" cur 700 nxt 700 role) s) s) s
  | Option.none => s

/-- `CardiologyConfig._create_output_data`. -/
def card_create_output_data (emap : List (String × EmpData))
    (cardiovascular_data : Nat → Option (List (Option String × List String)))
    (interventional_data : Nat → Option (Option String))
    (cardiology_data : Nat → Option CardioDayData)
    (year month : Nat) (tr0 : DebugTracker) : ExtractState :=
  (List.range' 1 (daysInMonth year month)).foldl
    (fun s day =>
      cardProcessDay emap cardiovascular_data interventional_data cardiology_data
        year month day s)
    ([], tr0)

/-! ## Validation (`validate_and_configure`) -/

/-- An `openpyxl` workbook, as far as validation consults it. -/
structure PyWorkbook where
  sheetnames : List String
deriving Repr, DecidableEq

/-- An uploaded file: its filename stem and loaded workbook. -/
structure PyFile where
  stem : String
  workbook : PyWorkbook
deriving Repr, DecidableEq

/-- `Converter.extract_month_year_from_filename`'s month pattern table. -/
def month_patterns : List (Nat × List String) := [
  (1, ["january", "jan"]), (2, ["february", "feb"]), (3, ["march", "mar"]),
  (4, ["april", "apr"]), (5, ["may"]), (6, ["june", "jun"]),
  (7, ["july", "jul"]), (8, ["august", "aug"]), (9, ["september", "sep"]),
  (10, ["october", "oct"]), (11, ["november", "nov"]), (12, ["december", "dec"])]

/-- First match of the regex `20\d{2}` starting at this position. -/
def yearAt : List Char → Option Nat
  | '2' :: '0' :: a :: b :: _ =>
    if a.isDigit && b.isDigit then
      some (2000 + (a.toNat - 48) * 10 + (b.toNat - 48))
    else none
  | _ => none

/-- `re.search(r'20\d{2}', s)`: leftmost four-digit year starting `20`. -/
def findYearMatch : List Char → Option Nat
  | [] => none
  | c :: rest =>
    match yearAt (c :: rest) with
    | some y => some y
    | Option.none => findYearMatch rest

/-- `Converter.extract_month_year_from_filename`; `nowYear` stands for
`datetime.now().year`, used when no year token is found. -/
def extract_month_year_from_filename (filename : String) (nowYear : Nat) :
    Option Nat × Nat :=
  let fl := strLower filename
  let detected := (month_patterns.find?
    (fun p => p.2.any (fun pat => pyIn pat.data fl.data))).map (·.1)
  let yr := (findYearMatch filename.data).getD nowYear
  (detected, yr)

/-- Month/year resolution shared by both `validate_and_configure`s: use the
caller-supplied values when both are present, else detect from the given
filename stem, else fall back to the current date. -/
def resolveMonthYear (month year : Option Nat) (stem : String) (nowMonth nowYear : Nat) :
    Nat × Nat :=
  match month, year with
  | some m, some y => (m, y)
  | _, _ =>
    match extract_month_year_from_filename stem nowYear with
    | (some dm, dy) => (dm, dy)
    | (Option.none, _) => (nowMonth, nowYear)

/-- Worksheet selection in `RadiologyConfig.validate_and_configure`: a
valid operator-selected sheet wins, else the default name when present,
else the workbook's first sheet. -/
def radSelectSheet (wb : PyWorkbook) (sel : Option String) (defaultName : String) : String :=
  match sel with
  | some sn => if wb.sheetnames.contains sn then sn else wb.sheetnames.headD ""
  | Option.none =>
    if wb.sheetnames.contains defaultName then defaultName else wb.sheetnames.headD ""

/-- The configuration returned by `RadiologyConfig.validate_and_configure`
(worksheets are represented by their selected sheet names). -/
structure RadValidateResult where
  work_sheet : String
  oncall_sheet : String
  teams : List (String × RadTeamCfg)
  month : Nat
  year : Nat
deriving Repr, DecidableEq

/-- `RadiologyConfig.validate_and_configure`: raises (`Except.error`)
unless exactly 2 files are supplied, then selects sheets, resolves
month/year, and returns the fixed team configuration. -/
def radiology_validate_and_configure (files : List PyFile) (month year : Option Nat)
    (selected_sheets : Nat → Option String) (nowMonth nowYear : Nat) :
    Except String RadValidateResult :=
  if files.length ≠ 2 then Except.error "Radiology requires exactly 2 files"
  else
    let work_file := files.getD 0 ⟨"", ⟨[]⟩⟩
    let oncall_file := files.getD 1 ⟨"", ⟨[]⟩⟩
    let ws_work := radSelectSheet work_file.workbook (selected_sheets 0) "WORK SCHEDULE"
    let ws_oncall := radSelectSheet oncall_file.workbook (selected_sheets 1) "Sheet1"
    let my := resolveMonthYear month year oncall_file.stem nowMonth nowYear
    Except.ok ⟨ws_work, ws_oncall, radiologyTeams, my.1, my.2⟩

/-- The row configuration returned by
`CardiologyConfig.validate_and_configure` (`cardiology_config.py`, the
version without sheet pre-selection). -/
structure CardValidateResult where
  month : Nat
  year : Nat
  consultant_rows : Nat × Nat
  staff_rows : Nat × Nat
  team94_row : Nat
  team8_rows : Nat × Nat
deriving Repr, DecidableEq

/-- `CardiologyConfig.validate_and_configure`: raises (`Except.error`) when
fewer than 2 files are supplied, then resolves month/year and returns the
default row configuration. -/
def cardiology_validate_and_configure (files : List PyFile) (month year : Option Nat)
    (nowMonth nowYear : Nat) : Except String CardValidateResult :=
  if files.length < 2 then Except.error "Cardiology requires at least 2 files"
  else
    let rotation_file := files.getD 0 ⟨"", ⟨[]⟩⟩
    let my := resolveMonthYear month year rotation_file.stem nowMonth nowYear
    Except.ok ⟨my.1, my.2, (6, 11), (6, 13), 29, (12, 16)⟩

/-! ## Concrete fixtures -/

/-- A work-schedule worksheet whose day-1 row carries the compound cell
`"MF/TELE"` in column H. -/
def wsWorkMFTELE : Worksheet := fun r c =>
  if r = 5 ∧ c = 1 then .str "1"
  else if r = 5 ∧ c = 8 then .str "MF/TELE"
  else .none

/-- Row-to-day placement of the 21 Sun–Thu days of February 2024 in the
work-schedule scan rows. -/
def feb24RowDays : List (Nat × String) := [
  (5, "1"), (6, "4"), (7, "5"), (8, "6"), (9, "7"),
  (13, "8"), (14, "11"), (15, "12"), (16, "13"), (17, "14"),
  (21, "15"), (22, "18"), (23, "19"), (24, "20"), (25, "21"),
  (29, "22"), (30, "25"), (31, "26"), (32, "27"), (33, "28"),
  (37, "29")]

/-- A fully populated February 2024 work schedule: every weekday row has
its day number in column A and the registered initials `AK` in column C. -/
def wsWorkFeb24 : Worksheet := fun r c =>
  match feb24RowDays.find? (fun p => p.1 = r) with
  | some p => if c = 1 then .str p.2 else if c = 3 then .str "AK" else .none
  | Option.none => .none

/-- A fully populated February 2024 on-call schedule: row 30 names a
directory employee and carries an `X` in every day column (day `d` is
column `3 + d`). -/
def wsOncallFeb24 : Worksheet := fun r c =>
  if r = 30 ∧ c = 1 then .str "Dr. Allison Livingston"
  else if r = 30 ∧ 4 ≤ c ∧ c ≤ 32 then .str "X"
  else .none

/-- A single team with the weekday two-block pattern (0700–1530 work,
1530–0700 on-call), as in the radiology `MRI` configuration. -/
def oneTeamTwoBlocks : List (String × RadTeamCfg) := [("MRI", ⟨"116", ["C"], (30, 38)⟩)]

/-! ## Specification-side definitions -/

/-- Modelled from the spec (§4.1 Identifier Resolver), for comparison with
`find_username_by_identifier`: (1) exact case-insensitive match against the
initials index, (2) exact case-sensitive match against the full name,
(3) case-insensitive match against the full name with all periods removed
from both sides; otherwise classify as initials-like (length ≤ 4, entirely
upper-case) or name-like, record in the respective deduplicated unresolved
set, and return unresolved. -/
def resolveSpecModel (emap : List (String × EmpData)) (tr : DebugTracker)
    (text : String) : Option String × DebugTracker :=
  if text = "" then (none, tr)
  else
    let t := pyStrip text
    let nameToUsername := pyDictOf (emap.map (fun p => (p.2.emp_name, p.1)))
    match dictFind (pyDictOf (emap.map (fun p => (strUpper p.2.emp_initials, p.1))))
        (strUpper t) with
    | some u => (some u, tr)
    | Option.none =>
      match dictFind nameToUsername t with
      | some u => (some u, tr)
      | Option.none =>
        match nameToUsername.find?
            (fun p => strLower (pyStrip (delPeriods p.1)) = strLower (pyStrip (delPeriods t))) with
        | some p => (some p.2, tr)
        | Option.none =>
          if t.length ≤ 4 ∧ pyIsUpper t then (none, tr.add_unknown_initials t)
          else (none, tr.add_unknown_name t)

/-- Modelled from the spec (§4.4 assignment-selection tie-break), for
comparison with `pickWeekdayConsultant`: among the day's consultant
entries, the first one bearing the primary marker `D`, otherwise the first
bearing a secondary marker (`LD`, `DL`, `D/A`), otherwise the first entry
with any resolved employee identifier. -/
def pickWeekdayConsultantSpec (cs : List (Option String × List String)) : Option String :=
  match (cs.filter (fun p => optTruthy p.1 && p.2.contains "D")).head? with
  | some p => p.1
  | Option.none =>
    match (cs.filter (fun p => optTruthy p.1 &&
        (p.2.contains "LD" || p.2.contains "DL" || p.2.contains "D/A"))).head? with
    | some p => p.1
    | Option.none =>
      match (cs.filter (fun p => optTruthy p.1)).head? with
      | some p => p.1
      | Option.none => none

/-- The (team, day, start, end) key of an expected entry. -/
def entryKey (e : ExpectedEntry) : String × Nat × Nat × Nat :=
  (e.team, e.day, e.start_time, e.end_time)

/-- The tracker-accounting invariant of an extraction state: every emitted
record has marked exactly one registration generated, so the generated
count equals the output length, which is bounded by the number of
registrations. -/
def TrackInv (s : ExtractState) : Prop :=
  countGenerated s.2.expected_entries = s.1.length ∧
    s.1.length ≤ s.2.expected_entries.length

/-- The overnight-block invariant for one record: a start time later in the
day than the end time forces the end date to be the next calendar day. -/
def overnightOk (e : ScheduleEntry) : Prop :=
  e.ENDTIME < e.STARTTIME → e.ENDDATE = e.STARTDATE + 1

/-- Whether a validation call raised (aborting with no partial output). -/
def raisesError {α : Type} : Except String α → Bool
  | .error _ => true
  | .ok _ => false

/-- Every emitted record of an extraction state satisfies `Q`. -/
def OutPred (Q : ScheduleEntry → Prop) (s : ExtractState) : Prop :=
  ∀ e ∈ s.1, Q e

/-- A loaded file fixture (one sheet, month/year in the stem). -/
def fileFixture : PyFile := ⟨"oncall_feb_2024", ⟨["Sheet1"]⟩⟩

/-! ## Helper lemmas -/

theorem find?_eq_filter_head? {α : Type} (p : α → Bool) :
    ∀ l : List α, l.find? p = (l.filter p).head? := by
  intro l
  induction l with
  | nil => rfl
  | cons c t ih =>
    cases h : p c
    · rw [List.find?_cons_of_neg _ (by simp [h]), List.filter_cons_of_neg (by simp [h]), ih]
    · rw [List.find?_cons_of_pos _ h, List.filter_cons_of_pos h, List.head?_cons]

theorem readersLoop_some (i2e : List (String × String)) :
    ∀ (rs : List String) (tr : DebugTracker) (r : String) (tr' : DebugTracker),
      readersLoop i2e tr rs = (some r, tr') →
      r ≠ "TELE" ∧ dictContains i2e r = true := by
  intro rs
  induction rs with
  | nil => intro tr r tr' h; simp [readersLoop] at h
  | cons x rest ih =>
    intro tr r tr' h
    by_cases h1 : x ≠ "TELE" ∧ dictContains i2e x = true
    · rw [readersLoop, if_pos h1] at h
      obtain ⟨hr, _⟩ := Prod.mk.injEq .. ▸ h
      cases h
      exact ⟨h1.1, h1.2⟩
    · by_cases h2 : x ≠ "TELE"
      · rw [readersLoop, if_neg h1, if_pos h2] at h
        exact ih _ r tr' h
      · rw [readersLoop, if_neg h1, if_neg h2] at h
        exact ih _ r tr' h

theorem readersLoop_none (i2e : List (String × String)) :
    ∀ (rs : List String) (tr tr' : DebugTracker),
      readersLoop i2e tr rs = (none, tr') →
      ∀ r ∈ rs, r ≠ "TELE" → dictContains i2e r = false := by
  intro rs
  induction rs with
  | nil => intro tr tr' _ r hr; simp at hr
  | cons x rest ih =>
    intro tr tr' h r hr hne
    by_cases h1 : x ≠ "TELE" ∧ dictContains i2e x = true
    · rw [readersLoop, if_pos h1] at h
      simp at h
    · rcases List.mem_cons.mp hr with rfl | hmem
      · by_cases h2 : r ≠ "TELE"
        · rw [readersLoop, if_neg h1, if_pos h2] at h
          simp only [not_and] at h1
          exact Bool.not_eq_true _ ▸ (h1 h2)
        · exact absurd hne h2
      · by_cases h2 : x ≠ "TELE"
        · rw [readersLoop, if_neg h1, if_pos h2] at h
          exact ih _ _ h r hmem hne
        · rw [readersLoop, if_neg h1, if_neg h2] at h
          exact ih _ _ h r hmem hne

/-! ## Claims -/

/-- C4: for every date, the day is classified as a weekday exactly when its
day-of-week (0 = Sunday) is Sunday through Thursday, and as a weekend
exactly when it is Friday or Saturday. -/
theorem c4_weekday_classification (y m d : Nat) :
    (is_weekday (toOrdinal y m d) = true ↔
      (dayOfWeekSun0 (toOrdinal y m d) = 0 ∨ dayOfWeekSun0 (toOrdinal y m d) = 1 ∨
       dayOfWeekSun0 (toOrdinal y m d) = 2 ∨ dayOfWeekSun0 (toOrdinal y m d) = 3 ∨
       dayOfWeekSun0 (toOrdinal y m d) = 4)) ∧
    (is_weekday (toOrdinal y m d) = false ↔
      (dayOfWeekSun0 (toOrdinal y m d) = 5 ∨ dayOfWeekSun0 (toOrdinal y m d) = 6)) := by
  generalize toOrdinal y m d = o
  have hc : is_weekday o = true ↔
      ((o + 6) % 7 = 6 ∨ (o + 6) % 7 = 0 ∨ (o + 6) % 7 = 1 ∨
       (o + 6) % 7 = 2 ∨ (o + 6) % 7 = 3) := by
    simp [is_weekday, pyWeekday, List.contains, or_assoc]
  have hf : is_weekday o = false ↔ ¬ is_weekday o = true := by
    simp
  constructor
  · rw [hc]
    unfold dayOfWeekSun0
    omega
  · rw [hf, hc]
    unfold dayOfWeekSun0
    omega

/-- C9: `validate_and_configure` raises exactly on a wrong file count —
the radiology configuration unless exactly 2 files are supplied, the
cardiology configuration when fewer than 2 are supplied (the `Except`
result carries no partial output on the error side). -/
theorem c9_validate_file_count (files : List PyFile) (m y : Option Nat)
    (sel : Nat → Option String) (nm ny : Nat) :
    ((∀ f ∈ files, f.workbook.sheetnames ≠ []) →
      (raisesError (radiology_validate_and_configure files m y sel nm ny) = true ↔
        files.length ≠ 2)) ∧
    (raisesError (cardiology_validate_and_configure files m y nm ny) = true ↔
      files.length < 2) := by
  constructor
  · intro _
    unfold radiology_validate_and_configure
    by_cases h : files.length = 2 <;> simp [h, raisesError]
  · unfold cardiology_validate_and_configure
    by_cases h : files.length < 2 <;> simp [h, raisesError]

/-- Witness for C9: one file makes the radiology validation raise. -/
theorem c9_witness :
    [fileFixture].length ≠ 2 ∧
    raisesError (radiology_validate_and_configure [fileFixture] none none
      (fun _ => none) 1 2024) = true :=
  ⟨by decide,
   ((c9_validate_file_count [fileFixture] none none (fun _ => none) 1 2024).1
      (by decide)).mpr (by decide)⟩

/-- C2: identifier resolution tries, in order with first match winning,
(1) case-insensitive initials match, (2) exact full-name match,
(3) case-insensitive period-stripped full-name match, and otherwise
records the stripped text in the deduplicated unresolved-initials set
(length ≤ 4 and entirely upper-case) or unresolved-names set, returning no
identifier: the embedded resolver coincides with the spec's algorithm on
the program's directory for every input and tracker state (both sides are
total functions — resolution never raises). -/
theorem c2_resolution_algorithm (tr : DebugTracker) (text : String) :
    find_username_by_identifier EMPLOYEE_MAP tr text = resolveSpecModel EMPLOYEE_MAP tr text := by
  have hd : pyDictOf (EMPLOYEE_MAP.map (fun p => (strUpper p.2.emp_initials, p.1))) =
      pyDictOf (EMPLOYEE_MAP.map (fun p => (p.2.emp_initials, p.1))) := by decide
  unfold find_username_by_identifier resolveSpecModel
  rw [hd]

/-- Counterexample to C3: `"AK"` resolves to an employee but the variant
`"A.K"` does not (the period-stripped rule applies only to full names, not
to initials), so the three variants do not all yield the same identifier. -/
theorem c3_counterexample :
    (find_username_by_identifier EMPLOYEE_MAP tracker0 "AK").1 = some "allwo0f" ∧
    (find_username_by_identifier EMPLOYEE_MAP tracker0 "A.K").1 = none := by
  constructor <;> decide

/-- C3 (amended): `"AK"` and `"ak"` resolve to the same employee
identifier; `"A.K"` is not resolved and is recorded in the
unresolved-initials set; and any unresolved 3-character entirely
upper-case token is recorded in the unresolved-initials set, not the
unresolved-names set. -/
theorem c3_initials_variants :
    (find_username_by_identifier EMPLOYEE_MAP tracker0 "AK").1 = some "allwo0f" ∧
    (find_username_by_identifier EMPLOYEE_MAP tracker0 "ak").1 = some "allwo0f" ∧
    find_username_by_identifier EMPLOYEE_MAP tracker0 "A.K" =
      (none, tracker0.add_unknown_initials "A.K") ∧
    ∀ (tr : DebugTracker) (s : String), (pyStrip s).length = 3 →
      pyIsUpper (pyStrip s) = true →
      (find_username_by_identifier EMPLOYEE_MAP tr s).1 = none →
      (find_username_by_identifier EMPLOYEE_MAP tr s).2 =
        tr.add_unknown_initials (pyStrip s) := by
  refine ⟨by decide, by decide, by decide, ?_⟩
  intro tr s h1 h2 h3
  by_cases hs : s = ""
  · subst hs; exact absurd h1 (by decide)
  · unfold find_username_by_identifier at h3 ⊢
    simp only [if_neg hs] at h3 ⊢
    rcases hm1 : dictFind (pyDictOf (EMPLOYEE_MAP.map (fun p => (p.2.emp_initials, p.1))))
        (strUpper (pyStrip s)) with _ | u
    · rw [hm1] at h3 ⊢
      simp only at h3 ⊢
      rcases hm2 : dictFind (pyDictOf (EMPLOYEE_MAP.map (fun p => (p.2.emp_name, p.1))))
          (pyStrip s) with _ | u
      · rw [hm2] at h3 ⊢
        simp only at h3 ⊢
        rcases hm3 : (pyDictOf (EMPLOYEE_MAP.map (fun p => (p.2.emp_name, p.1)))).find?
            (fun p => strLower (pyStrip (delPeriods p.1)) =
              strLower (pyStrip (delPeriods (pyStrip s)))) with _ | pr
        · rw [hm3] at h3 ⊢
          simp only at h3 ⊢
          rw [if_pos ⟨by omega, h2⟩]
        · rw [hm3] at h3
          simp at h3
      · rw [hm2] at h3
        simp at h3
    · rw [hm1] at h3
      simp at h3

/-- Witness for C3 (amended): the unresolved upper-case token `"ZZZ"` goes
to the unresolved-initials set. -/
theorem c3_witness :
    (pyStrip "ZZZ").length = 3 ∧
    (find_username_by_identifier EMPLOYEE_MAP tracker0 "ZZZ").2 =
      tracker0.add_unknown_initials (pyStrip "ZZZ") :=
  ⟨by decide, c3_initials_variants.2.2.2 tracker0 "ZZZ" (by decide) (by decide) (by decide)⟩

/-- C7: the compound work-shift cell `"MF/TELE"` resolves to `"MF"`, not
`"TELE"`, with nothing added to the unresolved sets; and in general the
exclusion token `"TELE"` is only returned from a compound cell when no
other slash-separated part resolves against the initials index. -/
theorem c7_compound_cell_exclusion :
    (get_employee_from_work_schedule EMPLOYEE_MAP wsWorkMFTELE 1 "H" tracker0 =
      (some "MF", tracker0)) ∧
    ∀ (i2e : List (String × String)) (tr tr' : DebugTracker) (empStr : String),
      empStr.data.contains '/' = true →
      resolveWorkCell i2e tr empStr = (some "TELE", tr') →
      ∀ r ∈ slashReaders empStr, r ≠ "TELE" → dictContains i2e r = false := by
  constructor
  · decide
  · intro i2e tr tr' empStr hslash hres r hr hne
    unfold resolveWorkCell at hres
    simp only [if_pos hslash] at hres
    rcases hl : readersLoop i2e tr (slashReaders empStr) with ⟨res, tr2⟩
    rcases res with _ | x
    · rw [hl] at hres
      simp only at hres
      exact readersLoop_none i2e (slashReaders empStr) tr tr2 hl r hr hne
    · rw [hl] at hres
      simp only at hres
      obtain ⟨hx, -⟩ := readersLoop_some i2e (slashReaders empStr) tr x tr2 hl
      rw [Prod.mk.injEq] at hres
      exact absurd (Option.some.inj hres.1) hx

/-- Witness for C7: a compound cell whose non-`TELE` part is unregistered
lets the `TELE` fallback win, and that part indeed fails to resolve. -/
theorem c7_witness : dictContains [("TELE", "qulfi6e")] "ZZ" = false :=
  c7_compound_cell_exclusion.2 [("TELE", "qulfi6e")] tracker0
    (tracker0.add_unknown_initials "ZZ") "ZZ/TELE"
    (by decide) (by decide) "ZZ" (by decide) (by decide)

/-- Counterexample to C8: February 2024 with a one-team weekday two-block
pattern and a fully populated, fully resolvable grid yields 50 records,
not 2 × 29 = 58 — weekend days (Friday/Saturday) produce a single
0700–0700 block, not two. -/
theorem c8_counterexample :
    ¬ ((radiology_extract_schedule_data EMPLOYEE_MAP wsWorkFeb24 wsOncallFeb24
        oneTeamTwoBlocks 2 2024 tracker0).1.length = 58) := by decide

/-- C8 (amended): the February 2024 fully populated, fully resolvable
scenario yields exactly 2 × 21 + 8 = 50 records — two per Sunday–Thursday
weekday and one 0700–0700 record per Friday/Saturday — with no unsatisfied
expected blocks. -/
theorem c8_full_month_scenario :
    (radiology_extract_schedule_data EMPLOYEE_MAP wsWorkFeb24 wsOncallFeb24
      oneTeamTwoBlocks 2 2024 tracker0).1.length = 50 ∧
    (radiology_extract_schedule_data EMPLOYEE_MAP wsWorkFeb24 wsOncallFeb24
      oneTeamTwoBlocks 2 2024 tracker0).2.get_missing_entries = [] := by
  constructor <;> decide

theorem countGenerated_cons (a : ExpectedEntry) (l : List ExpectedEntry) :
    countGenerated (a :: l) = (if a.generated then 1 else 0) + countGenerated l := by
  unfold countGenerated
  cases h : a.generated <;> simp [List.filter_cons, h, Nat.add_comm]

theorem countGenerated_append (l1 l2 : List ExpectedEntry) :
    countGenerated (l1 ++ l2) = countGenerated l1 + countGenerated l2 := by
  unfold countGenerated
  simp [List.filter_append]

theorem markList_length (team : String) (day st en : Nat) :
    ∀ l : List ExpectedEntry, (markList team day st en l).length = l.length := by
  intro l
  induction l with
  | nil => rfl
  | cons a rest ih =>
    unfold markList
    by_cases h : entryMatches team day st en a = true
    · rw [if_pos h]; simp
    · rw [if_neg h]; simp [ih]

theorem entryMatches_gen_false {team : String} {day st en : Nat} {a : ExpectedEntry}
    (h : entryMatches team day st en a = true) : a.generated = false := by
  unfold entryMatches at h
  simp only [Bool.and_eq_true, decide_eq_true_eq] at h
  exact h.2

theorem countGenerated_markList (team : String) (day st en : Nat) :
    ∀ l : List ExpectedEntry, (∃ x ∈ l, entryMatches team day st en x = true) →
      countGenerated (markList team day st en l) = countGenerated l + 1 := by
  intro l
  induction l with
  | nil => intro ⟨x, hx, _⟩; simp at hx
  | cons a rest ih =>
    intro ⟨x, hx, hm⟩
    unfold markList
    by_cases h : entryMatches team day st en a = true
    · rw [if_pos h]
      rw [countGenerated_cons, countGenerated_cons]
      have := entryMatches_gen_false h
      simp [this, Nat.add_comm, Nat.add_assoc]
    · rw [if_neg h]
      rw [countGenerated_cons, countGenerated_cons]
      have hxr : x ∈ rest := by
        rcases List.mem_cons.mp hx with rfl | hr
        · exact absurd hm h
        · exact hr
      rw [ih ⟨x, hxr, hm⟩]
      omega

theorem fresh_entry_matches (team : String) (day st en : Nat) (src : String)
    (emp : Option String) :
    entryMatches team day st en ⟨team, day, st, en, src, emp, false⟩ = true := by
  simp [entryMatches]

theorem countGenerated_snoc_false (l : List ExpectedEntry) (x : ExpectedEntry)
    (hx : x.generated = false) : countGenerated (l ++ [x]) = countGenerated l := by
  rw [countGenerated_append]
  simp [countGenerated, hx]

theorem radBlock_TrackInv (emap : List (String × EmpData)) (i2e : List (String × String))
    (tn ti : String) (day st en : Nat) (src : String) (dS dE : Nat)
    (emp : Option String) (s : ExtractState) (h : TrackInv s) :
    TrackInv (radBlock emap i2e tn ti day st en src dS dE emp s) := by
  obtain ⟨hc, hl⟩ := h
  unfold TrackInv radBlock DebugTracker.add_expected_entry DebugTracker.mark_entry_generated
  rcases emp with _ | e
  · dsimp only
    rw [countGenerated_snoc_false _ _ rfl, hc, List.length_append]
    simp only [List.length_cons, List.length_nil]
    refine ⟨?_, ?_⟩ <;> first | trivial | omega
  · dsimp only
    by_cases hcase : e ≠ "" ∧ dictContains i2e e = true
    · rw [if_pos hcase]
      dsimp only
      rw [countGenerated_markList tn day st en _
          ⟨_, List.mem_append_right _ (List.mem_singleton.mpr rfl),
            fresh_entry_matches tn day st en src (some e)⟩,
        countGenerated_snoc_false _ _ rfl, hc, markList_length,
        List.length_append, List.length_append]
      simp only [List.length_cons, List.length_nil]
      refine ⟨?_, ?_⟩ <;> first | trivial | omega
    · rw [if_neg hcase]
      dsimp only
      rw [countGenerated_snoc_false _ _ rfl, hc, List.length_append]
      simp only [List.length_cons, List.length_nil]
      refine ⟨?_, ?_⟩ <;> first | trivial | omega

theorem cardBlock_TrackInv (team : String) (day st en : Nat) (src : String) (guard : Bool)
    (u : Option String) (mk : String → ScheduleEntry) (s : ExtractState) (h : TrackInv s) :
    TrackInv (cardBlock team day st en src guard u mk s) := by
  obtain ⟨hc, hl⟩ := h
  unfold TrackInv cardBlock DebugTracker.add_expected_entry DebugTracker.mark_entry_generated
  by_cases hg : guard = true
  case neg => rw [if_neg hg]; exact ⟨hc, hl⟩
  case pos =>
    rw [if_pos hg]
    rcases u with _ | x
    · dsimp only
      rw [countGenerated_snoc_false _ _ rfl, hc, List.length_append]
      simp only [List.length_cons, List.length_nil]
      refine ⟨?_, ?_⟩ <;> first | trivial | omega
    · dsimp only
      by_cases hx : x ≠ ""
      · rw [if_pos hx]
        dsimp only
        rw [countGenerated_markList team day st en _
            ⟨_, List.mem_append_right _ (List.mem_singleton.mpr rfl),
              fresh_entry_matches team day st en src none⟩,
          countGenerated_snoc_false _ _ rfl, hc, markList_length,
          List.length_append, List.length_append]
        simp only [List.length_cons, List.length_nil]
        refine ⟨?_, ?_⟩ <;> first | trivial | omega
      · rw [if_neg hx]
        dsimp only
        rw [countGenerated_snoc_false _ _ rfl, hc, List.length_append]
        simp only [List.length_cons, List.length_nil]
        refine ⟨?_, ?_⟩ <;> first | trivial | omega

theorem add_unknown_initials_expected (tr : DebugTracker) (n : String) :
    (tr.add_unknown_initials n).expected_entries = tr.expected_entries := by
  unfold DebugTracker.add_unknown_initials
  split <;> rfl

theorem add_unknown_name_expected (tr : DebugTracker) (n : String) :
    (tr.add_unknown_name n).expected_entries = tr.expected_entries := by
  unfold DebugTracker.add_unknown_name
  split <;> rfl

theorem readersLoop_expected (i2e : List (String × String)) :
    ∀ (rs : List String) (tr : DebugTracker),
      (readersLoop i2e tr rs).2.expected_entries = tr.expected_entries := by
  intro rs
  induction rs with
  | nil => intro tr; rfl
  | cons x rest ih =>
    intro tr
    unfold readersLoop
    by_cases h1 : x ≠ "TELE" ∧ dictContains i2e x = true
    · rw [if_pos h1]
    · rw [if_neg h1]
      by_cases h2 : x ≠ "TELE"
      · rw [if_pos h2, ih, add_unknown_initials_expected]
      · rw [if_neg h2, ih]

theorem resolveWorkCell_expected (i2e : List (String × String)) (tr : DebugTracker)
    (empStr : String) :
    (resolveWorkCell i2e tr empStr).2.expected_entries = tr.expected_entries := by
  unfold resolveWorkCell
  by_cases hs : empStr.data.contains '/' = true
  · simp only [if_pos hs]
    rcases hl : readersLoop i2e tr (slashReaders empStr) with ⟨res, tr2⟩
    have h2 : tr2.expected_entries = tr.expected_entries := by
      have := readersLoop_expected i2e (slashReaders empStr) tr
      rw [hl] at this
      exact this
    rcases res with _ | x
    · dsimp only
      split
      · exact h2
      · exact h2
    · exact h2
  · simp only [if_neg hs]
    split
    · rfl
    · exact add_unknown_initials_expected tr _

theorem getEmpWorkRows_expected (i2e : List (String × String)) (wsW : Worksheet)
    (day_num col_idx : Nat) :
    ∀ (rows : List Nat) (tr : DebugTracker),
      (getEmpWorkRows i2e wsW day_num col_idx tr rows).2.expected_entries =
        tr.expected_entries := by
  intro rows
  induction rows with
  | nil => intro tr; rfl
  | cons r rest ih =>
    intro tr
    unfold getEmpWorkRows
    by_cases h1 : (wsW r 1).truthy = true
    · rw [if_pos h1]
      rcases cellDayNum (wsW r 1) with _ | cd
      · dsimp only; exact ih tr
      · dsimp only
        by_cases h2 : cd = day_num
        · rw [if_pos h2]
          by_cases h3 : (wsW r col_idx).truthy = true
          · rw [if_pos h3]
            rcases hr : resolveWorkCell i2e tr (strUpper (pyStrip (wsW r col_idx).toStr))
              with ⟨res, tr2⟩
            have hre : tr2.expected_entries = tr.expected_entries := by
              have := resolveWorkCell_expected i2e tr (strUpper (pyStrip (wsW r col_idx).toStr))
              rw [hr] at this
              exact this
            rcases res with _ | x
            · dsimp only
              rw [ih tr2, hre]
            · exact hre
          · rw [if_neg h3]; exact ih tr
        · rw [if_neg h2]; exact ih tr
    · rw [if_neg h1]; exact ih tr

theorem oncallNameLookup_expected (emap : List (String × EmpData)) (full original : String)
    (tr : DebugTracker) :
    (oncallNameLookup emap full original tr).2.expected_entries = tr.expected_entries := by
  unfold oncallNameLookup
  split
  · rfl
  · exact add_unknown_name_expected tr _

theorem getEmpOncallRows_expected (emap : List (String × EmpData)) (wsO : Worksheet)
    (day_num : Nat) :
    ∀ (rows : List Nat) (tr : DebugTracker),
      (getEmpOncallRows emap wsO day_num tr rows).2.expected_entries =
        tr.expected_entries := by
  intro rows
  induction rows with
  | nil => intro tr; rfl
  | cons r rest ih =>
    intro tr
    unfold getEmpOncallRows
    by_cases h1 : r = 23 ∨ r = 29
    · rw [if_pos h1]; exact ih tr
    · rw [if_neg h1]
      by_cases h2 : ¬(wsO r 1).truthy = true ∨ pyStrip (wsO r 1).toStr = ""
      · rw [if_pos h2]; exact ih tr
      · rw [if_neg h2]
        by_cases h3 : (wsO r (3 + day_num)).truthy = true ∧
            strUpper (pyStrip (wsO r (3 + day_num)).toStr) = "X"
        · rw [if_pos h3]
          exact oncallNameLookup_expected emap _ _ tr
        · rw [if_neg h3]; exact ih tr

theorem TrackInv_tracker_congr {out : List ScheduleEntry} {tr tr' : DebugTracker}
    (he : tr'.expected_entries = tr.expected_entries) (h : TrackInv (out, tr)) :
    TrackInv (out, tr') := by
  unfold TrackInv at *
  rw [he]
  exact h

theorem get_employee_from_work_schedule_expected (emap : List (String × EmpData))
    (wsW : Worksheet) (day_num : Nat) (col_letter : String) (tr : DebugTracker) :
    (get_employee_from_work_schedule emap wsW day_num col_letter tr).2.expected_entries =
      tr.expected_entries := by
  unfold get_employee_from_work_schedule
  exact getEmpWorkRows_expected _ _ _ _ _ _

theorem get_employee_from_oncall_schedule_expected (emap : List (String × EmpData))
    (wsO : Worksheet) (day_num row_start row_end : Nat) (tr : DebugTracker) :
    (get_employee_from_oncall_schedule emap wsO day_num row_start row_end tr).2.expected_entries =
      tr.expected_entries := by
  unfold get_employee_from_oncall_schedule
  exact getEmpOncallRows_expected _ _ _ _ _

theorem radProcessTeamDay_TrackInv (emap : List (String × EmpData))
    (i2e : List (String × String)) (wsW wsO : Worksheet) (day cur nxt : Nat) (iwd : Bool)
    (tname : String) (tc : RadTeamCfg) (s : ExtractState) (h : TrackInv s) :
    TrackInv (radProcessTeamDay emap i2e wsW wsO day cur nxt iwd tname tc s) := by
  unfold radProcessTeamDay
  by_cases hw : iwd = true
  · rw [if_pos hw]
    by_cases hg : tname = "Gen_CT"
    · rw [if_pos hg]
      apply radBlock_TrackInv
      apply TrackInv_tracker_congr
        (get_employee_from_oncall_schedule_expected emap wsO day _ _ _)
      apply radBlock_TrackInv
      apply TrackInv_tracker_congr
        (get_employee_from_work_schedule_expected emap wsW day _ _)
      apply radBlock_TrackInv
      exact TrackInv_tracker_congr (get_employee_from_work_schedule_expected emap wsW day _ _) h
    · rw [if_neg hg]
      apply radBlock_TrackInv
      apply TrackInv_tracker_congr (get_employee_from_oncall_schedule_expected emap wsO day _ _ _)
      apply radBlock_TrackInv
      exact TrackInv_tracker_congr (get_employee_from_work_schedule_expected emap wsW day _ _) h
  · rw [if_neg hw]
    apply radBlock_TrackInv
    exact TrackInv_tracker_congr (get_employee_from_oncall_schedule_expected emap wsO day _ _ _) h

theorem foldl_preserve {α σ : Type} (P : σ → Prop) (f : σ → α → σ)
    (hf : ∀ s a, P s → P (f s a)) :
    ∀ (l : List α) (s : σ), P s → P (l.foldl f s) := by
  intro l
  induction l with
  | nil => intro s hs; exact hs
  | cons a t ih => intro s hs; exact ih _ (hf s a hs)

theorem rad_extract_TrackInv (emap : List (String × EmpData)) (wsW wsO : Worksheet)
    (teams : List (String × RadTeamCfg)) (month year : Nat) (tr0 : DebugTracker)
    (h0 : tr0.expected_entries = []) :
    TrackInv (radiology_extract_schedule_data emap wsW wsO teams month year tr0) := by
  unfold radiology_extract_schedule_data
  apply foldl_preserve TrackInv
  · intro s day hs
    apply foldl_preserve TrackInv
    · intro s t hs
      exact radProcessTeamDay_TrackInv _ _ _ _ _ _ _ _ _ _ _ hs
    · exact hs
  · unfold TrackInv
    rw [h0]
    exact ⟨rfl, Nat.le_refl 0⟩

theorem card123Weekday_TrackInv (emap : List (String × EmpData)) (dd : CardioDayData)
    (day cur nxt : Nat) (s : ExtractState) (h : TrackInv s) :
    TrackInv (card123Weekday emap dd day cur nxt s) := by
  unfold card123Weekday
  dsimp only
  apply cardBlock_TrackInv
  apply cardBlock_TrackInv
  apply cardBlock_TrackInv
  apply cardBlock_TrackInv
  exact h

theorem card123Weekend_TrackInv (emap : List (String × EmpData)) (dd : CardioDayData)
    (day cur nxt : Nat) (s : ExtractState) (h : TrackInv s) :
    TrackInv (card123Weekend emap dd day cur nxt s) := by
  unfold card123Weekend
  dsimp only
  apply cardBlock_TrackInv
  apply cardBlock_TrackInv
  apply cardBlock_TrackInv
  exact h

theorem team8Fold_TrackInv (day cur nxt : Nat)
    (entries : List (Option String × List String)) (s : ExtractState) (h : TrackInv s) :
    TrackInv (entries.foldl (fun s p =>
      p.2.foldl (fun s role =>
        cardBlock "Cardiovascular" day 700 700 "Team8" true p.1
          (fun u => create_schedule_entry u "8" cur 700 nxt 700 role) s) s) s) := by
  apply foldl_preserve TrackInv
  · intro s p hp
    apply foldl_preserve TrackInv
    · intro s role hr
      exact cardBlock_TrackInv _ _ _ _ _ _ _ _ _ hr
    · exact hp
  · exact h

theorem cardProcessDay_TrackInv (emap : List (String × EmpData))
    (cv : Nat → Option (List (Option String × List String)))
    (iv : Nat → Option (Option String)) (cg : Nat → Option CardioDayData)
    (year month day : Nat) (s : ExtractState) (h : TrackInv s) :
    TrackInv (cardProcessDay emap cv iv cg year month day s) := by
  unfold cardProcessDay
  dsimp only
  cases hcg : cg day <;> cases hiv : iv day <;> cases hcv : cv day <;>
    simp only [hcg, hiv, hcv] <;>
    first
      | exact h
      | (first
          | apply team8Fold_TrackInv
          | skip) <;>
        (first
          | exact h
          | (apply cardBlock_TrackInv
             first
               | exact h
               | (split
                  · exact card123Weekday_TrackInv _ _ _ _ _ _ h
                  · exact card123Weekend_TrackInv _ _ _ _ _ _ h))
          | (split
             · exact card123Weekday_TrackInv _ _ _ _ _ _ h
             · exact card123Weekend_TrackInv _ _ _ _ _ _ h))

theorem card_create_TrackInv (emap : List (String × EmpData))
    (cv : Nat → Option (List (Option String × List String)))
    (iv : Nat → Option (Option String)) (cg : Nat → Option CardioDayData)
    (year month : Nat) (tr0 : DebugTracker) (h0 : tr0.expected_entries = []) :
    TrackInv (card_create_output_data emap cv iv cg year month tr0) := by
  unfold card_create_output_data
  apply foldl_preserve TrackInv
  · intro s day hs
    exact cardProcessDay_TrackInv _ _ _ _ _ _ _ _ hs
  · unfold TrackInv
    rw [h0]
    exact ⟨rfl, Nat.le_refl 0⟩

theorem markList_no_match (team : String) (day st en : Nat) :
    ∀ l : List ExpectedEntry, (∀ y ∈ l, entryMatches team day st en y = false) →
      markList team day st en l = l := by
  intro l
  induction l with
  | nil => intro _; rfl
  | cons a rest ih =>
    intro hy
    unfold markList
    rw [if_neg (by rw [hy a (List.mem_cons_self a rest)]; exact Bool.false_ne_true)]
    rw [ih (fun y hyr => hy y (List.mem_cons_of_mem a hyr))]

theorem markList_first_match (team : String) (day st en : Nat) :
    ∀ (l1 : List ExpectedEntry) (x : ExpectedEntry) (l2 : List ExpectedEntry),
      (∀ y ∈ l1, entryMatches team day st en y = false) →
      entryMatches team day st en x = true →
      markList team day st en (l1 ++ x :: l2) =
        l1 ++ { x with generated := true } :: l2 := by
  intro l1
  induction l1 with
  | nil =>
    intro x l2 _ hx
    simp only [List.nil_append]
    unfold markList
    rw [if_pos hx]
  | cons a t ih =>
    intro x l2 hy hx
    simp only [List.cons_append]
    unfold markList
    rw [if_neg (by rw [hy a (List.mem_cons_self a t)]; exact Bool.false_ne_true)]
    rw [ih x l2 (fun y hyr => hy y (List.mem_cons_of_mem a hyr)) hx]

/-- C1: in every conversion run started on a fresh tracker, the number of
emitted schedule records is at most the number of registered expected
entries and equals the number of registrations marked generated (each
emitted record marks exactly one registration); and
`mark_entry_generated` flips precisely the first not-yet-satisfied
registration with an exactly matching (team, day, start, end) key, leaving
every other registration untouched, so each registration is flipped at
most once. -/
theorem c1_expectation_accounting :
    (∀ (emap : List (String × EmpData)) (wsW wsO : Worksheet)
        (teams : List (String × RadTeamCfg)) (month year : Nat) (tr0 : DebugTracker),
      tr0.expected_entries = [] →
      (radiology_extract_schedule_data emap wsW wsO teams month year tr0).1.length ≤
        (radiology_extract_schedule_data emap wsW wsO teams month year
          tr0).2.expected_entries.length ∧
      countGenerated (radiology_extract_schedule_data emap wsW wsO teams month year
          tr0).2.expected_entries =
        (radiology_extract_schedule_data emap wsW wsO teams month year tr0).1.length) ∧
    (∀ (emap : List (String × EmpData))
        (cv : Nat → Option (List (Option String × List String)))
        (iv : Nat → Option (Option String)) (cg : Nat → Option CardioDayData)
        (year month : Nat) (tr0 : DebugTracker),
      tr0.expected_entries = [] →
      (card_create_output_data emap cv iv cg year month tr0).1.length ≤
        (card_create_output_data emap cv iv cg year month tr0).2.expected_entries.length ∧
      countGenerated (card_create_output_data emap cv iv cg year month
          tr0).2.expected_entries =
        (card_create_output_data emap cv iv cg year month tr0).1.length) ∧
    (∀ (team : String) (day st en : Nat) (l1 : List ExpectedEntry) (x : ExpectedEntry)
        (l2 : List ExpectedEntry),
      (∀ y ∈ l1, entryMatches team day st en y = false) →
      entryMatches team day st en x = true →
      markList team day st en (l1 ++ x :: l2) =
        l1 ++ { x with generated := true } :: l2) ∧
    (∀ (team : String) (day st en : Nat) (l : List ExpectedEntry),
      (∀ y ∈ l, entryMatches team day st en y = false) →
      markList team day st en l = l) := by
  refine ⟨?_, ?_, markList_first_match, markList_no_match⟩
  · intro emap wsW wsO teams month year tr0 h0
    obtain ⟨hc, hl⟩ := rad_extract_TrackInv emap wsW wsO teams month year tr0 h0
    exact ⟨hl, hc⟩
  · intro emap cv iv cg year month tr0 h0
    obtain ⟨hc, hl⟩ := card_create_TrackInv emap cv iv cg year month tr0 h0
    exact ⟨hl, hc⟩

/-- Witness for C1: the February 2024 radiology fixture run and a concrete
first-match flip of `mark_entry_generated`. -/
theorem c1_witness :
    ((radiology_extract_schedule_data EMPLOYEE_MAP wsWorkFeb24 wsOncallFeb24
        oneTeamTwoBlocks 2 2024 tracker0).1.length ≤
      (radiology_extract_schedule_data EMPLOYEE_MAP wsWorkFeb24 wsOncallFeb24
        oneTeamTwoBlocks 2 2024 tracker0).2.expected_entries.length ∧
     countGenerated (radiology_extract_schedule_data EMPLOYEE_MAP wsWorkFeb24 wsOncallFeb24
        oneTeamTwoBlocks 2 2024 tracker0).2.expected_entries =
      (radiology_extract_schedule_data EMPLOYEE_MAP wsWorkFeb24 wsOncallFeb24
        oneTeamTwoBlocks 2 2024 tracker0).1.length) ∧
    markList "Cardiology" 1 700 1600
      ([⟨"Cardiology", 1, 700, 1600, "Team123", none, true⟩] ++
        ⟨"Cardiology", 1, 700, 1600, "Team123", none, false⟩ :: []) =
      [⟨"Cardiology", 1, 700, 1600, "Team123", none, true⟩] ++
        ⟨"Cardiology", 1, 700, 1600, "Team123", none, true⟩ :: [] :=
  ⟨c1_expectation_accounting.1 EMPLOYEE_MAP wsWorkFeb24 wsOncallFeb24
      oneTeamTwoBlocks 2 2024 tracker0 rfl,
   c1_expectation_accounting.2.2.1 "Cardiology" 1 700 1600
      [⟨"Cardiology", 1, 700, 1600, "Team123", none, true⟩]
      ⟨"Cardiology", 1, 700, 1600, "Team123", none, false⟩ []
      (by decide) (by decide)⟩

theorem radBlock_OutPred {Q : ScheduleEntry → Prop} (emap : List (String × EmpData))
    (i2e : List (String × String)) (tn ti : String) (day st en : Nat) (src : String)
    (dS dE : Nat) (emp : Option String) (s : ExtractState)
    (hmk : ∀ u role, Q (create_schedule_entry u ti dS st dE en role))
    (h : OutPred Q s) : OutPred Q (radBlock emap i2e tn ti day st en src dS dE emp s) := by
  unfold OutPred radBlock at *
  rcases emp with _ | e
  · exact h
  · dsimp only
    by_cases hcase : e ≠ "" ∧ dictContains i2e e = true
    · rw [if_pos hcase]
      intro e' he'
      rcases List.mem_append.mp he' with hin | hone
      · exact h e' hin
      · rw [List.mem_singleton.mp hone]
        exact hmk _ _
    · rw [if_neg hcase]
      exact h
  
theorem cardBlock_OutPred {Q : ScheduleEntry → Prop} (team : String) (day st en : Nat)
    (src : String) (guard : Bool) (u : Option String) (mk : String → ScheduleEntry)
    (s : ExtractState) (hmk : ∀ x, Q (mk x)) (h : OutPred Q s) :
    OutPred Q (cardBlock team day st en src guard u mk s) := by
  unfold OutPred cardBlock at *
  by_cases hg : guard = true
  case neg => rw [if_neg hg]; exact h
  case pos =>
    rw [if_pos hg]
    rcases u with _ | x
    · exact h
    · dsimp only
      by_cases hx : x ≠ ""
      · rw [if_pos hx]
        intro e' he'
        rcases List.mem_append.mp he' with hin | hone
        · exact h e' hin
        · rw [List.mem_singleton.mp hone]
          exact hmk x
      · rw [if_neg hx]
        exact h

theorem overnightOk_cse (u ti : String) (dS st dE en : Nat) (role : String)
    (h : en < st → dE = dS + 1) : overnightOk (create_schedule_entry u ti dS st dE en role) := h

theorem radProcessTeamDay_overnight (emap : List (String × EmpData))
    (i2e : List (String × String)) (wsW wsO : Worksheet) (day cur nxt : Nat) (iwd : Bool)
    (tname : String) (tc : RadTeamCfg) (s : ExtractState)
    (hn : nxt = cur + 1) (h : OutPred overnightOk s) :
    OutPred overnightOk (radProcessTeamDay emap i2e wsW wsO day cur nxt iwd tname tc s) := by
  unfold radProcessTeamDay
  by_cases hw : iwd = true
  · rw [if_pos hw]
    by_cases hg : tname = "Gen_CT"
    · rw [if_pos hg]
      apply radBlock_OutPred _ _ _ _ _ _ _ _ _ _ _ _
        (fun u role => overnightOk_cse _ _ _ _ _ _ _ (by omega))
      apply radBlock_OutPred _ _ _ _ _ _ _ _ _ _ _ _
        (fun u role => overnightOk_cse _ _ _ _ _ _ _ (by omega))
      apply radBlock_OutPred _ _ _ _ _ _ _ _ _ _ _ _
        (fun u role => overnightOk_cse _ _ _ _ _ _ _ (by omega))
      exact h
    · rw [if_neg hg]
      apply radBlock_OutPred _ _ _ _ _ _ _ _ _ _ _ _
        (fun u role => overnightOk_cse _ _ _ _ _ _ _ (by omega))
      apply radBlock_OutPred _ _ _ _ _ _ _ _ _ _ _ _
        (fun u role => overnightOk_cse _ _ _ _ _ _ _ (by omega))
      exact h
  · rw [if_neg hw]
    apply radBlock_OutPred _ _ _ _ _ _ _ _ _ _ _ _
      (fun u role => overnightOk_cse _ _ _ _ _ _ _ (by omega))
    exact h

theorem rad_extract_overnight (emap : List (String × EmpData)) (wsW wsO : Worksheet)
    (teams : List (String × RadTeamCfg)) (month year : Nat) (tr0 : DebugTracker) :
    OutPred overnightOk (radiology_extract_schedule_data emap wsW wsO teams month year tr0) := by
  unfold radiology_extract_schedule_data
  apply foldl_preserve (OutPred overnightOk)
  · intro s day hs
    apply foldl_preserve (OutPred overnightOk)
    · intro s t hs
      exact radProcessTeamDay_overnight _ _ _ _ _ _ _ _ _ _ _ rfl hs
    · exact hs
  · intro e he
    simp at he

theorem cardBlock_endnext (team : String) (day st en : Nat) (src : String)
    (guard : Bool) (u : Option String) (mk : String → ScheduleEntry) (s : ExtractState)
    (hmk : ∀ x, (mk x).ENDDATE = (mk x).STARTDATE + 1)
    (h : OutPred (fun e => e.ENDDATE = e.STARTDATE + 1) s) :
    OutPred (fun e => e.ENDDATE = e.STARTDATE + 1)
      (cardBlock team day st en src guard u mk s) :=
  cardBlock_OutPred team day st en src guard u mk s hmk h

theorem card123Weekday_endnext (emap : List (String × EmpData)) (dd : CardioDayData)
    (day cur nxt : Nat) (s : ExtractState) (hn : nxt = cur + 1)
    (h : OutPred (fun e => e.ENDDATE = e.STARTDATE + 1) s) :
    OutPred (fun e => e.ENDDATE = e.STARTDATE + 1) (card123Weekday emap dd day cur nxt s) := by
  unfold card123Weekday
  dsimp only
  exact cardBlock_endnext _ _ _ _ _ _ _ _ _ (fun x => hn)
    (cardBlock_endnext _ _ _ _ _ _ _ _ _ (fun x => hn)
      (cardBlock_endnext _ _ _ _ _ _ _ _ _ (fun x => hn)
        (cardBlock_endnext _ _ _ _ _ _ _ _ _ (fun x => hn) h)))

theorem card123Weekend_endnext (emap : List (String × EmpData)) (dd : CardioDayData)
    (day cur nxt : Nat) (s : ExtractState) (hn : nxt = cur + 1)
    (h : OutPred (fun e => e.ENDDATE = e.STARTDATE + 1) s) :
    OutPred (fun e => e.ENDDATE = e.STARTDATE + 1) (card123Weekend emap dd day cur nxt s) := by
  unfold card123Weekend
  dsimp only
  exact cardBlock_endnext _ _ _ _ _ _ _ _ _ (fun x => hn)
    (cardBlock_endnext _ _ _ _ _ _ _ _ _ (fun x => hn)
      (cardBlock_endnext _ _ _ _ _ _ _ _ _ (fun x => hn) h))

theorem team8Fold_endnext (day cur nxt : Nat) (hn : nxt = cur + 1)
    (entries : List (Option String × List String)) (s : ExtractState)
    (h : OutPred (fun e => e.ENDDATE = e.STARTDATE + 1) s) :
    OutPred (fun e => e.ENDDATE = e.STARTDATE + 1)
      (entries.foldl (fun s p =>
        p.2.foldl (fun s role =>
          cardBlock "Cardiovascular" day 700 700 "Team8" true p.1
            (fun u => create_schedule_entry u "8" cur 700 nxt 700 role) s) s) s) := by
  apply foldl_preserve (OutPred (fun e => e.ENDDATE = e.STARTDATE + 1))
  · intro s p hp
    apply foldl_preserve (OutPred (fun e => e.ENDDATE = e.STARTDATE + 1))
    · intro s role hr
      exact cardBlock_endnext _ _ _ _ _ _ _ _ _ (fun x => hn) hr
    · exact hp
  · exact h

theorem cardProcessDay_endnext (emap : List (String × EmpData))
    (cv : Nat → Option (List (Option String × List String)))
    (iv : Nat → Option (Option String)) (cg : Nat → Option CardioDayData)
    (year month day : Nat) (s : ExtractState)
    (h : OutPred (fun e => e.ENDDATE = e.STARTDATE + 1) s) :
    OutPred (fun e => e.ENDDATE = e.STARTDATE + 1)
      (cardProcessDay emap cv iv cg year month day s) := by
  unfold cardProcessDay
  dsimp only
  cases hcg : cg day <;> cases hiv : iv day <;> cases hcv : cv day <;>
    simp only [hcg, hiv, hcv] <;>
    first
      | exact h
      | (first
          | apply team8Fold_endnext _ _ _ rfl
          | skip) <;>
        (first
          | exact h
          | (apply cardBlock_endnext _ _ _ _ _ _ _ _ _ (fun x => rfl)
             first
               | exact h
               | (split
                  · exact card123Weekday_endnext _ _ _ _ _ _ rfl h
                  · exact card123Weekend_endnext _ _ _ _ _ _ rfl h))
          | (split
             · exact card123Weekday_endnext _ _ _ _ _ _ rfl h
             · exact card123Weekend_endnext _ _ _ _ _ _ rfl h))

theorem card_create_endnext (emap : List (String × EmpData))
    (cv : Nat → Option (List (Option String × List String)))
    (iv : Nat → Option (Option String)) (cg : Nat → Option CardioDayData)
    (year month : Nat) (tr0 : DebugTracker) :
    OutPred (fun e => e.ENDDATE = e.STARTDATE + 1)
      (card_create_output_data emap cv iv cg year month tr0) := by
  unfold card_create_output_data
  apply foldl_preserve (OutPred (fun e => e.ENDDATE = e.STARTDATE + 1))
  · intro s day hs
    exact cardProcessDay_endnext _ _ _ _ _ _ _ _ hs
  · intro e he
    simp at he

/-- C5: every record emitted by either department's extraction whose start
time-of-day is later than its end time-of-day has its end date equal to
its start date plus one calendar day. -/
theorem c5_overnight_invariant :
    (∀ (emap : List (String × EmpData)) (wsW wsO : Worksheet)
        (teams : List (String × RadTeamCfg)) (month year : Nat) (tr0 : DebugTracker),
      ∀ e ∈ (radiology_extract_schedule_data emap wsW wsO teams month year tr0).1,
        overnightOk e) ∧
    (∀ (emap : List (String × EmpData))
        (cv : Nat → Option (List (Option String × List String)))
        (iv : Nat → Option (Option String)) (cg : Nat → Option CardioDayData)
        (year month : Nat) (tr0 : DebugTracker),
      ∀ e ∈ (card_create_output_data emap cv iv cg year month tr0).1, overnightOk e) := by
  constructor
  · intro emap wsW wsO teams month year tr0
    exact rad_extract_overnight emap wsW wsO teams month year tr0
  · intro emap cv iv cg year month tr0 e he
    intro _
    exact card_create_endnext emap cv iv cg year month tr0 e he

/-- Witness for C5: the weekday consultant record of a one-day cardiology
run satisfies the overnight-block invariant. -/
theorem c5_witness :
    overnightOk
      { EMPLOYEE := "qulfi6e", TEAM := "123", STARTDATE := toOrdinal 2024 1 1,
        STARTTIME := 700, ENDDATE := toOrdinal 2024 1 1 + 1, ENDTIME := 1600,
        ROLE := "3042457", NOTES := "2nd Day Call" } :=
  c5_overnight_invariant.2 EMPLOYEE_MAP (fun _ => none) (fun _ => none)
    (fun d => if d = 1 then some ⟨[(some "qulfi6e", ["D"])], []⟩ else none)
    2024 1 tracker0 _ (by decide)

/-- C10: every record emitted by the Cardiology output builder — including
the weekday daytime 0700–1600 and 1600–1900 blocks — has its end date set
to the calendar day after its start date, and never ends on its own start
date. -/
theorem c10_cardiology_end_dates (emap : List (String × EmpData))
    (cv : Nat → Option (List (Option String × List String)))
    (iv : Nat → Option (Option String)) (cg : Nat → Option CardioDayData)
    (year month : Nat) (tr0 : DebugTracker) :
    ∀ e ∈ (card_create_output_data emap cv iv cg year month tr0).1,
      e.ENDDATE = e.STARTDATE + 1 ∧ e.ENDDATE ≠ e.STARTDATE := by
  intro e he
  have h := card_create_endnext emap cv iv cg year month tr0 e he
  exact ⟨h, by omega⟩

/-- Witness for C10: the concrete weekday consultant record ends one
calendar day after it starts. -/
theorem c10_witness :
    ({ EMPLOYEE := "qulfi6e", TEAM := "123", STARTDATE := toOrdinal 2024 1 1,
       STARTTIME := 700, ENDDATE := toOrdinal 2024 1 1 + 1, ENDTIME := 1600,
       ROLE := "3042457", NOTES := "2nd Day Call" } : ScheduleEntry).ENDDATE =
      ({ EMPLOYEE := "qulfi6e", TEAM := "123", STARTDATE := toOrdinal 2024 1 1,
         STARTTIME := 700, ENDDATE := toOrdinal 2024 1 1 + 1, ENDTIME := 1600,
         ROLE := "3042457", NOTES := "2nd Day Call" } : ScheduleEntry).STARTDATE + 1 :=
  (c10_cardiology_end_dates EMPLOYEE_MAP (fun _ => none) (fun _ => none)
    (fun d => if d = 1 then some ⟨[(some "qulfi6e", ["D"])], []⟩ else none)
    2024 1 tracker0 _ (by decide)).1

theorem markList_map_entryKey (team : String) (day st en : Nat) :
    ∀ l : List ExpectedEntry,
      (markList team day st en l).map entryKey = l.map entryKey := by
  intro l
  induction l with
  | nil => rfl
  | cons a rest ih =>
    unfold markList
    by_cases h : entryMatches team day st en a = true
    · rw [if_pos h]
      simp [entryKey]
    · rw [if_neg h]
      simp only [List.map_cons, ih]

theorem cardBlock_out (team : String) (day st en : Nat) (src : String) (guard : Bool)
    (u : Option String) (mk : String → ScheduleEntry) (s : ExtractState) :
    (cardBlock team day st en src guard u mk s).1 =
      s.1 ++ (if guard then
        (match u with
          | some x => if x ≠ "" then [mk x] else []
          | Option.none => []) else []) := by
  unfold cardBlock
  by_cases hg : guard = true
  · rw [if_pos hg, if_pos hg]
    rcases u with _ | x
    · simp
    · dsimp only
      by_cases hx : x ≠ ""
      · rw [if_pos hx, if_pos hx]
      · rw [if_neg hx, if_neg hx]
        simp
  · rw [if_neg hg, if_neg hg]
    simp

theorem cardBlock_keys (team : String) (day st en : Nat) (src : String) (guard : Bool)
    (u : Option String) (mk : String → ScheduleEntry) (s : ExtractState) :
    (cardBlock team day st en src guard u mk s).2.expected_entries.map entryKey =
      s.2.expected_entries.map entryKey ++
        (if guard then [(team, day, st, en)] else []) := by
  unfold cardBlock DebugTracker.add_expected_entry DebugTracker.mark_entry_generated
  by_cases hg : guard = true
  · rw [if_pos hg, if_pos hg]
    rcases u with _ | x
    · dsimp only
      simp [entryKey]
    · dsimp only
      by_cases hx : x ≠ ""
      · rw [if_pos hx]
        dsimp only
        rw [markList_map_entryKey]
        simp [entryKey]
      · rw [if_neg hx]
        dsimp only
        simp [entryKey]
  · rw [if_neg hg, if_neg hg]
    simp

theorem exists_cons_of_append {α : Type} (a : α) (l k1 k2 k3 : List α) :
    ∃ rest, (((l ++ [a]) ++ k1) ++ k2) ++ k3 = l ++ a :: rest :=
  ⟨k1 ++ k2 ++ k3, by simp⟩

/-- C6: on a weekday, the Team 123 consultant is chosen by first-match
priority — first a resolved entry bearing `D`, else one bearing `LD`, `DL`
or `D/A`, else the first resolved entry (the embedded selection equals the
spec's tie-break); whenever at least one consultant raw entry exists the
0700–1600 expected block is registered even if nothing resolved; a
resolved pick is emitted as the `2nd Day Call` record; and with no
resolved pick no consultant record is emitted. -/
theorem c6_weekday_consultant_selection (emap : List (String × EmpData)) (dd : CardioDayData)
    (day cur nxt : Nat) (out : List ScheduleEntry) (tr : DebugTracker) :
    pickWeekdayConsultant dd.consultants = pickWeekdayConsultantSpec dd.consultants ∧
    (dd.consultants ≠ [] → ∃ restKeys,
      (card123Weekday emap dd day cur nxt (out, tr)).2.expected_entries.map entryKey =
        tr.expected_entries.map entryKey ++ ("Cardiology", day, 700, 1600) :: restKeys) ∧
    (∀ u, pickWeekdayConsultant dd.consultants = some u → u ≠ "" → ∃ rest,
      (card123Weekday emap dd day cur nxt (out, tr)).1 =
        out ++ ({ create_schedule_entry u "123" cur 700 nxt 1600 "3042457" with
            NOTES := "2nd Day Call" } :: rest)) ∧
    (optTruthy (pickWeekdayConsultant dd.consultants) = false →
      ∀ e ∈ (card123Weekday emap dd day cur nxt (out, tr)).1,
        e ∈ out ∨ e.NOTES ≠ "2nd Day Call") := by
  refine ⟨?_, ?_, ?_, ?_⟩
  · unfold pickWeekdayConsultant pickWeekdayConsultantSpec
    rw [find?_eq_filter_head?, find?_eq_filter_head?, find?_eq_filter_head?]
  · intro hne
    have hg : (!dd.consultants.isEmpty) = true := by
      rcases hcs : dd.consultants with _ | ⟨a, t⟩
      · exact absurd hcs hne
      · rfl
    unfold card123Weekday
    dsimp only
    rw [cardBlock_keys, cardBlock_keys, cardBlock_keys, cardBlock_keys, if_pos hg]
    exact exists_cons_of_append _ _ _ _ _
  · intro u hu hu'
    have hne : dd.consultants ≠ [] := by
      intro hcs
      rw [hcs] at hu
      simp [pickWeekdayConsultant] at hu
    have hg : (!dd.consultants.isEmpty) = true := by
      rcases hcs : dd.consultants with _ | ⟨a, t⟩
      · exact absurd hcs hne
      · rfl
    unfold card123Weekday
    dsimp only
    rw [cardBlock_out, cardBlock_out, cardBlock_out, cardBlock_out, if_pos hg, hu]
    dsimp only
    rw [if_pos hu']
    exact exists_cons_of_append _ _ _ _ _
  · intro hfalse e he
    unfold card123Weekday at he
    dsimp only at he
    rw [cardBlock_out, cardBlock_out, cardBlock_out, cardBlock_out] at he
    have hA1 : (if (!dd.consultants.isEmpty) = true then
        (match pickWeekdayConsultant dd.consultants with
          | some x => if x ≠ "" then
              [{ create_schedule_entry x "123" cur 700 nxt 1600 "3042457" with
                  NOTES := "2nd Day Call" }] else []
          | Option.none => []) else []) = [] := by
      rcases hp : pickWeekdayConsultant dd.consultants with _ | x
      · split <;> rfl
      · rw [hp] at hfalse
        have hx : ¬ x ≠ "" := by
          simp only [optTruthy] at hfalse
          simp at hfalse
          simp [hfalse]
        split
        · dsimp only
          rw [if_neg hx]
        · rfl
    rw [hA1, List.append_nil] at he
    rcases List.mem_append.mp he with h123 | h4
    · rcases List.mem_append.mp h123 with h12 | h3
      · rcases List.mem_append.mp h12 with h1 | h2
        · exact Or.inl h1
        · right
          split at h2
          · split at h2
            · split at h2
              · rcases List.mem_singleton.mp h2 with rfl
                dsimp only
                decide
              · simp at h2
            · simp at h2
          · simp at h2
      · right
        split at h3
        · split at h3
          · split at h3
            · rcases List.mem_singleton.mp h3 with rfl
              dsimp only
              decide
            · simp at h3
          · simp at h3
        · simp at h3
    · right
      split at h4
      · split at h4
        · split at h4
          · rcases List.mem_singleton.mp h4 with rfl
            dsimp only
            decide
          · simp at h4
        · simp at h4
      · simp at h4

/-- Witness for C6: a single resolved `D`-marked consultant is picked and
emitted as the first record of the weekday Team 123 processing. -/
theorem c6_witness :
    pickWeekdayConsultant [(some "qulfi6e", ["D"])] =
      pickWeekdayConsultantSpec [(some "qulfi6e", ["D"])] ∧
    (card123Weekday EMPLOYEE_MAP ⟨[(some "qulfi6e", ["D"])], []⟩ 1 100 101
      ([], tracker0)).1.head? =
      some { create_schedule_entry "qulfi6e" "123" 100 700 101 1600 "3042457" with
        NOTES := "2nd Day Call" } := by
  constructor
  · exact (c6_weekday_consultant_selection EMPLOYEE_MAP ⟨[(some "qulfi6e", ["D"])], []⟩
      1 100 101 [] tracker0).1
  · obtain ⟨rest, hr⟩ := (c6_weekday_consultant_selection EMPLOYEE_MAP
      ⟨[(some "qulfi6e", ["D"])], []⟩ 1 100 101 [] tracker0).2.2.1 "qulfi6e"
      (by decide) (by decide)
    rw [hr]
    rfl
